import Mathlib

/-!
Shallow embedding of the sila compiler front-end (lexer and parser from
`src/lexer.rs`, `src/parser.rs`, `src/comp_errors.rs`) and proofs about the
claims of the specification.

Conventions of the embedding:
* Rust `usize` becomes `Nat`.  Every subtraction the source performs on a
  `usize` that could underflow is modelled with an explicit check; an
  underflow produces the distinguished outcome `Failure.panicked`, matching
  the panic of a checked (debug) Rust build.  `unwrap`/`expect` on `None`
  and the panicking `CodeError::placeholder()` are modelled the same way.
* Rust loops and recursion are modelled with an explicit fuel parameter.
  Running out of fuel yields `PanicKind.fuelOut`; this outcome is an
  artifact of the embedding and every concrete evaluation below uses ample
  fuel, so it never occurs in the theorems.
* `char::is_alphabetic` / `is_alphanumeric` are modelled with the ASCII
  classifiers `Char.isAlpha` / `Char.isAlphanum`, and Rust's byte length
  `String::len` with `String.length`; these coincide on ASCII source text,
  and every input considered here is ASCII.
-/

/-- `TokenType` from `lexer.rs`: the closed enumeration of token kinds. -/
inductive TokenType
  | Define
  | Export
  | Import
  | Extern
  | Mut
  | Identifier
  | String
  | NumberInt
  | NumberFloat
  | LParen
  | RParen
  | Comma
  | Dot
  | Plus
  | Minus
  | Slash
  | Star
  | Colon
  | SemiColon
  | Greater
  | Lesser
  | Pipe
  | And
  | Exclamation
  | Equals
  | DoubleEquals
  | NotEquals
  | GreaterEquals
  | LesserEquals
  | RBrace
  | LBrace
  | As
  | Ref
  | Private
  | Return
  | Expression
  | Statement
deriving DecidableEq, Repr

/-- Alias for Lean's string type, needed where the constructor
`TokenType.String` would shadow it. -/
abbrev Str := String

/-- `TokenType::visualize` from `lexer.rs` (the display form of each kind). -/
def TokenType.visualize : TokenType → Str
  | .Define => "def"
  | .Export => "export"
  | .Import => "import"
  | .Extern => "extern"
  | .Mut => "mut"
  | .Identifier => "Identifier"
  | .String => "String"
  | .NumberInt => "Integer"
  | .NumberFloat => "Floating-point"
  | .LParen => "("
  | .RParen => ")"
  | .Comma => ","
  | .Dot => "."
  | .Plus => "+"
  | .Minus => "-"
  | .Slash => "/"
  | .Star => "*"
  | .Colon => ":"
  | .SemiColon => ";"
  | .Greater => ">"
  | .Lesser => "<"
  | .Pipe => "|"
  | .And => "&"
  | .Ref => "&"
  | .Exclamation => "!"
  | .Equals => "="
  | .DoubleEquals => "=="
  | .NotEquals => "!="
  | .GreaterEquals => ">="
  | .LesserEquals => "<="
  | .RBrace => "\x7d"
  | .LBrace => "\x7b"
  | .As => "->"
  | .Private => "private"
  | .Return => "return"
  | .Expression => "Expression"
  | .Statement => "Statement"

/-- `CodePosition` from `lexer.rs`. -/
structure CodePosition where
  idx_start : Nat
  idx_end : Nat
  line_start : Nat
  line_end : Nat
  line_idx_start : Nat
  line_idx_end : Nat
deriving DecidableEq, Repr

/-- The kind of panic a checked Rust build would hit; `fuelOut` is an
artifact of the fuel-based embedding and occurs in no theorem below. -/
inductive PanicKind
  | usizeUnderflow
  | isDoneUnderflow
  | unwrapNone
  | placeholderPanic
  | unreachableReached
  | fuelOut
deriving DecidableEq, Repr

/-- `CodePosition::one_char` from `lexer.rs`.  It computes
`line_idx - 1` on a `usize`; with `line_idx = 0` this underflows and a
checked build panics, which the `Except` models. -/
def CodePosition.one_char (idx line line_idx : Nat) :
    Except PanicKind CodePosition :=
  match line_idx with
  | 0 => .error .usizeUnderflow
  | li + 1 =>
    .ok { idx_start := idx, idx_end := idx, line_start := line,
          line_end := line, line_idx_start := li, line_idx_end := li + 1 }

/-- `CodePosition::eof` from `lexer.rs`: the all-zero sentinel. -/
def CodePosition.eof : CodePosition :=
  { idx_start := 0, idx_end := 0, line_start := 0, line_end := 0,
    line_idx_start := 0, line_idx_end := 0 }

/-- `CodePosition::merge` from `lexer.rs`. -/
def CodePosition.merge (a b : CodePosition) : CodePosition :=
  { idx_start := a.idx_start, idx_end := b.idx_end,
    line_start := a.line_start, line_end := b.line_end,
    line_idx_start := a.line_idx_start, line_idx_end := b.line_idx_end }

/-- `Token` from `lexer.rs`. -/
structure Token where
  content : String
  token_type : TokenType
  code_position : CodePosition
deriving DecidableEq, Repr

/-- `CodeErrorType` from `comp_errors.rs`, plus `FunctionOverloaded`:
`CodeError::function_overloaded` is called from `parser.rs` but its
definition is not under `src/`, so its kind tag is modelled from the spec
(the fatal "function modifiers may not be combined" error). -/
inductive CodeErrorType
  | LexerUnknownChar
  | LexerUnexpectedChar
  | LexerEndOfFile
  | ParserUnexpectedToken
  | MissingTokenError
  | FunctionOverloaded
deriving DecidableEq, Repr

/-- `CodeError` from `comp_errors.rs`. -/
structure CodeError where
  position : CodePosition
  code_error_type : CodeErrorType
  title : String
  footer : String
  pointer : Option String
  notes : List String
deriving DecidableEq, Repr

/-- `CodeError::new` from `comp_errors.rs` (same argument order). -/
def CodeError.new (position : CodePosition) (code_error_type : CodeErrorType)
    (title : String) (pointer : Option String) (footer : String)
    (notes : List String) : CodeError :=
  { position := position, code_error_type := code_error_type, title := title,
    footer := footer, pointer := pointer, notes := notes }

/-- `CodeError::new_unexpected_token_error` from `comp_errors.rs`. -/
def CodeError.new_unexpected_token_error (token : Token)
    (expected : TokenType) (extra : Option String) : CodeError :=
  CodeError.new token.code_position .ParserUnexpectedToken "Unexpected Token"
    (some ("Should be followed by `" ++ expected.visualize ++ "`"))
    ("Expected another token `" ++ expected.visualize ++ "`, but got `" ++
      token.token_type.visualize ++ "`")
    (match extra with
     | some e => [e]
     | none => [])

/-- `CodeError::new_unknown_char_error` from `comp_errors.rs`. -/
def CodeError.new_unknown_char_error (position : CodePosition) (c : Char) :
    CodeError :=
  CodeError.new position .LexerUnknownChar "Unknown character"
    (some "This one") ("Character `" ++ c.toString ++ "` is weird!") []

/-- `CodeError::new_eof_error` from `comp_errors.rs`. -/
def CodeError.new_eof_error : CodeError :=
  CodeError.new CodePosition.eof .LexerEndOfFile "End of File" none
    "Premature end of file!" []

/-- `CodeError::missing_token_error` from `comp_errors.rs`. -/
def CodeError.missing_token_error (last_token : Token) : CodeError :=
  CodeError.new last_token.code_position .MissingTokenError "Missing token"
    (some "After this") "Premature end of file!" []

/-- Modelled from the spec: `CodeError::function_overloaded` is called at
`parser.rs` line 153 but is not defined anywhere under `src/`; per the spec
it is the fatal "function modifiers may not be combined" error carried at
the given token.  It is modelled like the other one-token constructors:
positioned at that token, with the spec's title. -/
def CodeError.function_overloaded (token : Token) : CodeError :=
  CodeError.new token.code_position .FunctionOverloaded
    "function modifiers may not be combined" none
    "function modifiers may not be combined" []

/-- Failure of a lexer or parser run: a returned `CodeError`, or a panic of
a checked Rust build. -/
inductive Failure
  | code (e : CodeError)
  | panicked (k : PanicKind)
deriving DecidableEq, Repr

/-- `Scanner` from `lexer.rs`. -/
structure Scanner where
  cursor : Nat
  line : Nat
  line_idx : Nat
  characters : List Char
deriving DecidableEq, Repr

/-- `Scanner::new` from `lexer.rs`. -/
def Scanner.new (string : String) : Scanner :=
  { cursor := 0, line := 0, line_idx := 0, characters := string.toList }

/-- `Scanner::peek` from `lexer.rs`. -/
def Scanner.peek (s : Scanner) : Option Char :=
  s.characters.get? s.cursor

/-- `Scanner::is_done` from `lexer.rs`. -/
def Scanner.is_done (s : Scanner) : Bool :=
  s.cursor == s.characters.length

/-- `Scanner::pop` from `lexer.rs`: returns the popped character (if any)
and the updated scanner. -/
def Scanner.pop (s : Scanner) : Option Char × Scanner :=
  match s.characters.get? s.cursor with
  | some character =>
    let s' := { s with cursor := s.cursor + 1, line_idx := s.line_idx + 1 }
    if character = '\n' then
      (some character, { s' with line := s'.line + 1, line_idx := 0 })
    else
      (some character, s')
  | none => (none, s)

/-- `Scanner::previous` from `lexer.rs`; the `cursor - 1` is a checked
`usize` subtraction. -/
def Scanner.previous (s : Scanner) : Except Failure (Option Char) :=
  match s.cursor with
  | 0 => .error (.panicked .usizeUnderflow)
  | c + 1 => .ok (s.characters.get? c)

/-- `Token::from_one` from `lexer.rs` (propagates the possible
`one_char` underflow panic). -/
def Token.from_one (idx line line_idx : Nat) (content : Char)
    (token_type : TokenType) : Except Failure Token :=
  match CodePosition.one_char idx line line_idx with
  | .error k => .error (.panicked k)
  | .ok pos =>
    .ok { content := content.toString, token_type := token_type,
          code_position := pos }

/-- `Scanner::this_as_token` from `lexer.rs`. -/
def Scanner.this_as_token (s : Scanner) (token_type : TokenType) :
    Except Failure (Option Token) :=
  match s.previous with
  | .error f => .error f
  | .ok none => .ok none
  | .ok (some c) =>
    match Token.from_one s.cursor s.line s.line_idx c token_type with
    | .error f => .error f
    | .ok t => .ok (some t)

/-- `Scanner::this_as_codepos` from `lexer.rs`. -/
def Scanner.this_as_codepos (s : Scanner) :
    Except Failure (Option CodePosition) :=
  if s.is_done then .ok none
  else
    match CodePosition.one_char s.cursor s.line s.line_idx with
    | .error k => .error (.panicked k)
    | .ok pos => .ok (some pos)

/-- `Scanner::this_as_codepos2` from `lexer.rs` (`expect` on `None` is a
panic). -/
def Scanner.this_as_codepos2 (s : Scanner) : Except Failure CodePosition :=
  match s.this_as_codepos with
  | .error f => .error f
  | .ok none => .error (.panicked .unwrapNone)
  | .ok (some pos) => .ok pos

/-- The multi-line-comment skip loop of `tokenizer` in `lexer.rs`:
`while let Some(c) = scanner.pop() { if *c == '#' && peek == '#'
{ pop; break } }`. -/
def skipMulti : Nat → Scanner → Scanner
  | 0, s => s
  | fuel + 1, s =>
    match s.pop with
    | (none, s') => s'
    | (some c, s') =>
      if c = '#' ∧ s'.peek = some '#' then (s'.pop).2
      else skipMulti fuel s'

/-- The line-comment skip loop of `tokenizer` in `lexer.rs`:
`while let Some(c) = scanner.pop() { if *c == '\n' { break } }`.
(In the source this branch is unreachable, see `C1`.) -/
def skipLine : Nat → Scanner → Scanner
  | 0, s => s
  | fuel + 1, s =>
    match s.pop with
    | (none, s') => s'
    | (some c, s') =>
      if c = '\n' then s'
      else skipLine fuel s'

/-- The identifier run of `tokenizer` in `lexer.rs`: consume characters
while alphanumeric or `_`. -/
def identRun : Nat → Scanner → Scanner
  | 0, s => s
  | fuel + 1, s =>
    match s.peek with
    | some next =>
      if next.isAlphanum ∨ next = '_' then identRun fuel (s.pop).2
      else s
    | none => s

/-- The number run of `tokenizer` in `lexer.rs`: consume digits, allowing a
single `.` (which flips the float flag). -/
def numberRun : Nat → Scanner → Bool → Scanner × Bool
  | 0, s, is_float => (s, is_float)
  | fuel + 1, s, is_float =>
    match s.peek with
    | some next =>
      if next.isDigit then numberRun fuel (s.pop).2 is_float
      else if next = '.' ∧ is_float = false then numberRun fuel (s.pop).2 true
      else (s, is_float)
    | none => (s, is_float)

/-- The characters `characters[start..stop]` of a scanner, as a string
(Rust's `scanner.characters[start_pos..scanner.cursor].iter().collect()`). -/
def sliceContent (s : Scanner) (start stop : Nat) : String :=
  ((s.characters.drop start).take (stop - start)).asString

/-- Checked `usize` subtraction: panics (in a checked build) on
underflow. -/
def subChecked (a b : Nat) : Except Failure Nat :=
  if b ≤ a then .ok (a - b) else .error (.panicked .usizeUnderflow)

/-- The string-literal loop of `tokenizer` in `lexer.rs`: scan until the
closing quote, else raise the EOF error. -/
def stringRun : Nat → Scanner → Nat → Except Failure (Token × Scanner)
  | 0, _, _ => .error (.panicked .fuelOut)
  | fuel + 1, s, start_pos =>
    match s.peek with
    | some next =>
      if next = '"' then
        let string := sliceContent s start_pos s.cursor
        let s' := (s.pop).2
        match subChecked s'.line_idx string.length with
        | .error f => .error f
        | .ok li_start =>
          .ok ({ content := string, token_type := .String,
                 code_position :=
                   { idx_start := start_pos, idx_end := start_pos,
                     line_start := s'.line, line_end := s'.line,
                     line_idx_start := li_start,
                     line_idx_end := s'.line_idx } }, s')
      else stringRun fuel (s.pop).2 start_pos
    | none => .error (.code CodeError.new_eof_error)

/-- The single-character punctuation kinds of `tokenizer` in `lexer.rs`
(the outer pattern `'(' | ')' | ',' | '.' | '+' | '/' | '*' | ':' | ';' |
'{' | '}'`; note `'|'` is absent from it, so `Pipe` is unreachable). -/
def punctType (c : Char) : Option TokenType :=
  if c = '(' then some .LParen
  else if c = ')' then some .RParen
  else if c = ',' then some .Comma
  else if c = '.' then some .Dot
  else if c = '+' then some .Plus
  else if c = '/' then some .Slash
  else if c = '*' then some .Star
  else if c = ':' then some .Colon
  else if c = ';' then some .SemiColon
  else if c = '\x7b' then some .LBrace
  else if c = '\x7d' then some .RBrace
  else none

/-- The keyword table of `tokenizer` in `lexer.rs`. -/
def keywordType (identifier : String) : TokenType :=
  if identifier = "def" then .Define
  else if identifier = "export" then .Export
  else if identifier = "import" then .Import
  else if identifier = "extern" then .Extern
  else if identifier = "mut" then .Mut
  else if identifier = "private" then .Private
  else if identifier = "return" then .Return
  else .Identifier

/-- The two-character lookahead arms of `tokenizer` in `lexer.rs`
(`&`, `-`, `>`, `<`, `!`, `=`): pop the first character, check the peeked
second, and build the token with `this_as_token`. -/
def twoCharArm (s : Scanner) (second : Char) (both single : TokenType) :
    Except Failure (Option Token × Scanner) :=
  let s1 := (s.pop).2
  match s1.peek with
  | some c =>
    if c = second then
      let s2 := (s1.pop).2
      match s2.this_as_token both with
      | .error f => .error f
      | .ok t => .ok (t, s2)
    else
      match s1.this_as_token single with
      | .error f => .error f
      | .ok t => .ok (t, s1)
  | none =>
    match s1.this_as_token single with
    | .error f => .error f
    | .ok t => .ok (t, s1)

/-- `tokenizer` from `lexer.rs`: skip whitespace and comments, then
classify the next run of characters into one token (or `none` at
end-of-input).  The `#` arm reproduces the source exactly: it peeks again
*before* popping, so the peek still sees the same `#` and the multi-line
branch is always taken (the line-comment branch is dead code). -/
def tokenizer : Nat → Scanner → Except Failure (Option Token × Scanner)
  | 0, _ => .error (.panicked .fuelOut)
  | fuel + 1, s =>
    match s.peek with
    | none => .ok (none, s)
    | some current =>
      if current = ' ' ∨ current = '\t' ∨ current = '\n' ∨ current = '\r' then
        tokenizer fuel (s.pop).2
      else if current = '#' then
        match s.peek with
        | some '#' => tokenizer fuel (skipMulti fuel ((s.pop).2))
        | _ => tokenizer fuel (skipLine fuel s)
      else
        match punctType current with
        | some token_type =>
          let s' := (s.pop).2
          match s'.this_as_token token_type with
          | .error f => .error f
          | .ok t => .ok (t, s')
        | none =>
          if current = '&' then twoCharArm s '&' .Ref .And
          else if current = '-' then twoCharArm s '>' .As .Minus
          else if current = '>' then twoCharArm s '=' .GreaterEquals .Greater
          else if current = '<' then twoCharArm s '=' .LesserEquals .Lesser
          else if current = '!' then twoCharArm s '=' .NotEquals .Exclamation
          else if current = '=' then twoCharArm s '=' .DoubleEquals .Equals
          else if current.isAlpha ∨ current = '_' then
            let start_pos := s.cursor
            let s' := identRun fuel s
            let identifier := sliceContent s' start_pos s'.cursor
            match subChecked s'.line_idx identifier.length with
            | .error f => .error f
            | .ok li_start =>
              .ok (some { content := identifier,
                          token_type := keywordType identifier,
                          code_position :=
                            { idx_start := start_pos, idx_end := s'.cursor,
                              line_start := s'.line, line_end := s'.line,
                              line_idx_start := li_start,
                              line_idx_end := s'.line_idx } }, s')
          else if current.isDigit then
            let start_pos := s.cursor
            let (s', is_float) := numberRun fuel s false
            let number := sliceContent s' start_pos s'.cursor
            let token_type :=
              if is_float then TokenType.NumberFloat else TokenType.NumberInt
            match subChecked s'.line_idx number.length with
            | .error f => .error f
            | .ok li_start =>
              .ok (some { content := number, token_type := token_type,
                          code_position :=
                            { idx_start := start_pos, idx_end := s'.cursor,
                              line_start := s'.line, line_end := s'.line,
                              line_idx_start := li_start,
                              line_idx_end := s'.line_idx } }, s')
          else if current = '"' then
            let s' := (s.pop).2
            match stringRun fuel s' s'.cursor with
            | .error f => .error f
            | .ok (t, s'') => .ok (some t, s'')
          else
            match s.this_as_codepos2 with
            | .error f => .error f
            | .ok pos =>
              .error (.code (CodeError.new_unknown_char_error pos current))

/-- The token-collection loop of `tokenize` in `lexer.rs`. -/
def tokenizeLoop : Nat → Scanner → List Token → Except Failure (List Token)
  | 0, _, _ => .error (.panicked .fuelOut)
  | fuel + 1, s, acc =>
    match tokenizer (s.characters.length + 2) s with
    | .error f => .error f
    | .ok (some t, s') => tokenizeLoop fuel s' (acc ++ [t])
    | .ok (none, _) => .ok acc

/-- `tokenize` from `lexer.rs`. -/
def tokenize (content : String) : Except Failure (List Token) :=
  let scanner := Scanner.new content
  tokenizeLoop (scanner.characters.length + 2) scanner []

/-- `FunctionMode` from `parser.rs`. -/
inductive FunctionMode
  | Private
  | Export
  | Extern
  | Default
deriving DecidableEq, Repr

/-- `ASTNode` from `parser.rs`.  The source's `Type` constructor is named
`TypeNode` here because `Type` is a Lean keyword; `FunctionDef`'s argument
list pairs each argument name with its type node. -/
inductive ASTNode
  | Literal (t : Token)
  | Identifier (t : Token)
  | StringLit (t : Token)
  | TypeNode (t : Token)
  | BinaryOp (lhs : ASTNode) (op : Token) (rhs : ASTNode)
  | CastExpr (e : ASTNode) (ty : ASTNode)
  | FunctionDef (name : Token) (mode : FunctionMode) (ret : ASTNode)
      (args : List (Token × ASTNode)) (body : List ASTNode)
  | VariableSet (name : Token) (e : ASTNode) (ty : Option ASTNode)
  | Import (name : Token)
  | FunctionCall (name : Token) (args : List ASTNode)
  | Return (e : ASTNode)
deriving Repr

/-- Discriminator: is this AST node a `CastExpr`? -/
def ASTNode.isCastExpr : ASTNode → Bool
  | .CastExpr _ _ => true
  | _ => false

namespace Parser

/-- `Parser::peek` from `parser.rs`. -/
def peek (toks : List Token) (p : Nat) : Option Token :=
  toks.get? p

/-- `Parser::current` from `parser.rs`. -/
def current (toks : List Token) (p : Nat) : Option Token :=
  toks.get? p

/-- `Parser::advance` from `parser.rs`: the token at the cursor (if any)
and the updated cursor. -/
def advance (toks : List Token) (p : Nat) : Option Token × Nat :=
  match toks.get? p with
  | some t => (some t, p + 1)
  | none => (none, p)

/-- `Parser::previous` from `parser.rs`; `pointer - 1` is a checked
`usize` subtraction (underflows at cursor `0`). -/
def previous (toks : List Token) (p : Nat) : Except Failure (Option Token) :=
  match p with
  | 0 => .error (.panicked .usizeUnderflow)
  | q + 1 => .ok (toks.get? q)

/-- `Parser::is_done` from `parser.rs`: `(*pointer - 1) == self.tokens.len()`
on `usize`, so at cursor `0` the subtraction underflows (`none`). -/
def is_done (toks : List Token) (p : Nat) : Option Bool :=
  match p with
  | 0 => none
  | q + 1 => some (decide (q = toks.length))

/-- `Parser::is_done_err` from `parser.rs`; the underflow inside `is_done`
is the distinguished panic `PanicKind.isDoneUnderflow`. -/
def is_done_err (toks : List Token) (p : Nat) : Except Failure Unit :=
  match is_done toks p with
  | none => .error (.panicked .isDoneUnderflow)
  | some true =>
    match previous toks p with
    | .error f => .error f
    | .ok none => .error (.panicked .unwrapNone)
    | .ok (some t) => .error (.code (CodeError.missing_token_error t))
  | some false => .ok ()

/-- `Parser::match_token` from `parser.rs`. -/
def match_token (toks : List Token) (p : Nat) (token_type : TokenType) :
    Except Failure Bool × Nat :=
  match is_done_err toks p with
  | .error f => (.error f, p)
  | .ok _ =>
    match peek toks p with
    | some token =>
      if token.token_type = token_type then (.ok true, (advance toks p).2)
      else (.ok false, p)
    | none => (.ok false, p)

/-- `Parser::multi_match_token` from `parser.rs` (checks membership, does
not advance). -/
def multi_match_token (toks : List Token) (p : Nat)
    (token_types : List TokenType) : Except Failure Bool × Nat :=
  match is_done_err toks p with
  | .error f => (.error f, p)
  | .ok _ =>
    match peek toks p with
    | some token =>
      if token.token_type ∈ token_types then (.ok true, p)
      else (.ok false, p)
    | none => (.ok false, p)

/-- `Parser::match_next_token` from `parser.rs`: inspects the token at
`pointer + 1` and advances the cursor by one on a match. -/
def match_next_token (toks : List Token) (p : Nat) (token_type : TokenType) :
    Except Failure Bool × Nat :=
  match is_done_err toks p with
  | .error f => (.error f, p)
  | .ok _ =>
    match toks.get? (p + 1) with
    | some token =>
      if token.token_type = token_type then (.ok true, (advance toks p).2)
      else (.ok false, p)
    | none => (.ok false, p)

/-- `Parser::consume` from `parser.rs`.  On failure the reported token is
`current(pointer).or(previous(pointer)).unwrap()`; Rust's `Option::or`
evaluates its argument eagerly, so `previous` is evaluated in either
case. -/
def consume (toks : List Token) (p : Nat) (expected : TokenType)
    (note : Option String) : Except Failure Token × Nat :=
  match is_done_err toks p with
  | .error f => (.error f, p)
  | .ok _ =>
    match match_token toks p expected with
    | (.error f, p') => (.error f, p')
    | (.ok true, p') =>
      match previous toks p' with
      | .error f => (.error f, p')
      | .ok none => (.error (.panicked .unwrapNone), p')
      | .ok (some t) => (.ok t, p')
    | (.ok false, p') =>
      match previous toks p' with
      | .error f => (.error f, p')
      | .ok prev =>
        match (current toks p').or prev with
        | none => (.error (.panicked .unwrapNone), p')
        | some t =>
          (.error (.code (CodeError.new_unexpected_token_error t expected
            note)), p')

/-- `Parser::codepos_from_space` from `parser.rs` (both `unwrap`s and the
`*e - sub_off` subtraction are checked). -/
def codepos_from_space (toks : List Token) (s e sub_off : Nat) :
    Except Failure CodePosition :=
  match toks.get? s with
  | none => .error (.panicked .unwrapNone)
  | some startTok =>
    match subChecked e sub_off with
    | .error f => .error f
    | .ok i =>
      match toks.get? i with
      | none => .error (.panicked .unwrapNone)
      | some endTok =>
        .ok { idx_start := startTok.code_position.idx_start,
              idx_end := endTok.code_position.idx_end,
              line_start := startTok.code_position.line_start,
              line_end := endTok.code_position.line_end,
              line_idx_start := startTok.code_position.line_idx_start,
              line_idx_end := endTok.code_position.line_idx_end }

/-- `Parser::parse_type` from `parser.rs`. -/
def parse_type (toks : List Token) (p : Nat) :
    Except Failure ASTNode × Nat :=
  match consume toks p .Identifier none with
  | (.error f, p') => (.error f, p')
  | (.ok t, p') => (.ok (ASTNode.TypeNode t), p')

/-- `Parser::parse_import` from `parser.rs`. -/
def parse_import (toks : List Token) (p : Nat) :
    Except Failure ASTNode × Nat :=
  match consume toks p .Import none with
  | (.error f, p1) => (.error f, p1)
  | (.ok _, p1) =>
    match consume toks p1 .Identifier none with
    | (.error f, p2) => (.error f, p2)
    | (.ok module_name, p2) => (.ok (ASTNode.Import module_name), p2)

mutual

/-- `Parser::parse_expression` from `parser.rs`: a term, optionally cast
via the `As` token. -/
def parse_expression : Nat → List Token → Nat →
    Except Failure ASTNode × Nat
  | 0, _, p => (.error (.panicked .fuelOut), p)
  | fuel + 1, toks, p =>
    match parse_term fuel toks p with
    | (.error f, p1) => (.error f, p1)
    | (.ok term, p1) =>
      match match_token toks p1 .As with
      | (.error f, p2) => (.error f, p2)
      | (.ok true, p2) =>
        match parse_type toks p2 with
        | (.error f, p3) => (.error f, p3)
        | (.ok ty, p3) => (.ok (ASTNode.CastExpr term ty), p3)
      | (.ok false, p2) => (.ok term, p2)
termination_by structural fuel => fuel

/-- `Parser::parse_term` from `parser.rs`: a factor followed by the
`+`/`-` loop. -/
def parse_term : Nat → List Token → Nat → Except Failure ASTNode × Nat
  | 0, _, p => (.error (.panicked .fuelOut), p)
  | fuel + 1, toks, p =>
    match parse_factor fuel toks p with
    | (.error f, p1) => (.error f, p1)
    | (.ok node, p1) => parse_term_loop fuel toks node p1
termination_by structural fuel => fuel

/-- The `while` loop of `Parser::parse_term`. -/
def parse_term_loop : Nat → List Token → ASTNode → Nat →
    Except Failure ASTNode × Nat
  | 0, _, _, p => (.error (.panicked .fuelOut), p)
  | fuel + 1, toks, node, p =>
    match peek toks p with
    | some token =>
      match token.token_type with
      | .Plus | .Minus =>
        match advance toks p with
        | (none, p1) => (.error (.panicked .unwrapNone), p1)
        | (some op, p1) =>
          match parse_factor fuel toks p1 with
          | (.error f, p2) => (.error f, p2)
          | (.ok right, p2) =>
            parse_term_loop fuel toks (ASTNode.BinaryOp node op right) p2
      | _ => (.ok node, p)
    | none => (.ok node, p)
termination_by structural fuel => fuel

/-- `Parser::parse_factor` from `parser.rs`: a primary followed by the
`*`/`/` loop. -/
def parse_factor : Nat → List Token → Nat → Except Failure ASTNode × Nat
  | 0, _, p => (.error (.panicked .fuelOut), p)
  | fuel + 1, toks, p =>
    match parse_primary fuel toks p with
    | (.error f, p1) => (.error f, p1)
    | (.ok node, p1) => parse_factor_loop fuel toks node p1
termination_by structural fuel => fuel

/-- The `while` loop of `Parser::parse_factor`. -/
def parse_factor_loop : Nat → List Token → ASTNode → Nat →
    Except Failure ASTNode × Nat
  | 0, _, _, p => (.error (.panicked .fuelOut), p)
  | fuel + 1, toks, node, p =>
    match peek toks p with
    | some token =>
      match token.token_type with
      | .Star | .Slash =>
        match advance toks p with
        | (none, p1) => (.error (.panicked .unwrapNone), p1)
        | (some op, p1) =>
          match parse_primary fuel toks p1 with
          | (.error f, p2) => (.error f, p2)
          | (.ok right, p2) =>
            parse_factor_loop fuel toks (ASTNode.BinaryOp node op right) p2
      | _ => (.ok node, p)
    | none => (.ok node, p)
termination_by structural fuel => fuel

/-- `Parser::parse_primary` from `parser.rs`.  Note the `Identifier` arm:
the cursor has already been advanced past the identifier, and
`match_next_token` then inspects the token *after* the cursor (i.e. the
token following the `(`, if any). -/
def parse_primary : Nat → List Token → Nat → Except Failure ASTNode × Nat
  | 0, _, p => (.error (.panicked .fuelOut), p)
  | fuel + 1, toks, p =>
    match advance toks p with
    | (some token, p1) =>
      match token.token_type with
      | .NumberInt => (.ok (ASTNode.Literal token), p1)
      | .NumberFloat => (.ok (ASTNode.Literal token), p1)
      | .Identifier =>
        match match_next_token toks p1 .LParen with
        | (.error f, p2) => (.error f, p2)
        | (.ok true, p2) => parse_function_call fuel toks p2
        | (.ok false, p2) => (.ok (ASTNode.Identifier token), p2)
      | .String => (.ok (ASTNode.StringLit token), p1)
      | .LParen =>
        match parse_expression fuel toks p1 with
        | (.error f, p2) => (.error f, p2)
        | (.ok expr, p2) =>
          match match_token toks p2 .RParen with
          | (.error f, p3) => (.error f, p3)
          | (.ok true, p3) => (.ok expr, p3)
          | (.ok false, p3) => (.error (.panicked .placeholderPanic), p3)
      | _ =>
        match previous toks p1 with
        | .error f => (.error f, p1)
        | .ok none => (.error (.panicked .unwrapNone), p1)
        | .ok (some prev) =>
          (.error (.code (CodeError.new_unexpected_token_error prev
            .Expression
            (some "You may add a literal (number), string, variable, or a term here"))),
           p1)
    | (none, p1) =>
      match previous toks p1 with
      | .error f => (.error f, p1)
      | .ok none => (.error (.panicked .unwrapNone), p1)
      | .ok (some prev) =>
        (.error (.code (CodeError.missing_token_error prev)), p1)
termination_by structural fuel => fuel

/-- `Parser::parse_function_call` from `parser.rs`: the name is the token
*before* the cursor, then `(` is consumed and the argument loop runs. -/
def parse_function_call : Nat → List Token → Nat →
    Except Failure ASTNode × Nat
  | 0, _, p => (.error (.panicked .fuelOut), p)
  | fuel + 1, toks, p =>
    match previous toks p with
    | .error f => (.error f, p)
    | .ok none => (.error (.panicked .unwrapNone), p)
    | .ok (some name) =>
      match consume toks p .LParen none with
      | (.error f, p1) => (.error f, p1)
      | (.ok _, p1) => parse_function_call_loop fuel toks name [] p1
termination_by structural fuel => fuel

/-- The argument loop of `Parser::parse_function_call`: while a token is
peekable, parse an expression, then either a closing `)` ends the call or
a `,` is required. -/
def parse_function_call_loop : Nat → List Token → Token → List ASTNode →
    Nat → Except Failure ASTNode × Nat
  | 0, _, _, _, p => (.error (.panicked .fuelOut), p)
  | fuel + 1, toks, name, paras, p =>
    match peek toks p with
    | none => (.ok (ASTNode.FunctionCall name paras), p)
    | some _ =>
      match parse_expression fuel toks p with
      | (.error f, p1) => (.error f, p1)
      | (.ok e, p1) =>
        let paras' := paras ++ [e]
        match match_token toks p1 .RParen with
        | (.error f, p2) => (.error f, p2)
        | (.ok true, p2) => (.ok (ASTNode.FunctionCall name paras'), p2)
        | (.ok false, p2) =>
          match consume toks p2 .Comma (some "Add a comma") with
          | (.error f, p3) => (.error f, p3)
          | (.ok _, p3) => parse_function_call_loop fuel toks name paras' p3

termination_by structural fuel => fuel
end

/-- `Parser::parse_return` from `parser.rs`. -/
def parse_return (fuel : Nat) (toks : List Token) (p : Nat) :
    Except Failure ASTNode × Nat :=
  match consume toks p .Return none with
  | (.error f, p1) => (.error f, p1)
  | (.ok _, p1) =>
    match parse_expression fuel toks p1 with
    | (.error f, p2) => (.error f, p2)
    | (.ok e, p2) => (.ok (ASTNode.Return e), p2)

/-- `Parser::parse_statement` from `parser.rs`.  In the expression-statement
branches the source computes `codepos_from_space(a, pointer, 1)` for the
`UnnecessaryCode` warning *after* `parse_expression`, whether it succeeded
or not; the warning itself only prints, but a panic inside that position
computation would propagate, so the computation is kept. -/
def parse_statement (fuel : Nat) (toks : List Token) (p : Nat) :
    Except Failure ASTNode × Nat :=
  match peek toks p with
  | some token =>
    match token.token_type with
    | .Identifier =>
      match match_next_token toks p .LParen with
      | (.error f, p1) => (.error f, p1)
      | (.ok true, p1) => parse_function_call fuel toks p1
      | (.ok false, p1) =>
        let a := p1
        match parse_expression fuel toks p1 with
        | (res, p2) =>
          match codepos_from_space toks a p2 1 with
          | .error f => (.error f, p2)
          | .ok _ => (res, p2)
    | .NumberInt | .NumberFloat =>
      let a := p
      match parse_expression fuel toks p with
      | (res, p2) =>
        match codepos_from_space toks a p2 1 with
        | .error f => (.error f, p2)
        | .ok _ => (res, p2)
    | .Return => parse_return fuel toks p
    | _ =>
      (.error (.code (CodeError.new_unexpected_token_error token .Statement
        (some "Expected some sort of statement"))), p)
  | none =>
    match previous toks p with
    | .error f => (.error f, p)
    | .ok none => (.error (.panicked .unwrapNone), p)
    | .ok (some prev) =>
      (.error (.code (CodeError.missing_token_error prev)), p)

/-- The statement loop of `Parser::parse_block`: stop before `}` or at
end of tokens; after each statement a missing `;` ends the loop. -/
def parse_block_loop : Nat → List Token → List ASTNode → Nat →
    Except Failure (List ASTNode) × Nat
  | 0, _, _, p => (.error (.panicked .fuelOut), p)
  | fuel + 1, toks, stmts, p =>
    match peek toks p with
    | none => (.ok stmts, p)
    | some token =>
      if token.token_type = .RBrace then (.ok stmts, p)
      else
        match parse_statement fuel toks p with
        | (.error f, p1) => (.error f, p1)
        | (.ok stmt, p1) =>
          let stmts' := stmts ++ [stmt]
          match match_token toks p1 .SemiColon with
          | (.error f, p2) => (.error f, p2)
          | (.ok true, p2) => parse_block_loop fuel toks stmts' p2
          | (.ok false, p2) => (.ok stmts', p2)

/-- `Parser::parse_block` from `parser.rs`. -/
def parse_block (fuel : Nat) (toks : List Token) (p : Nat) :
    Except Failure (List ASTNode) × Nat :=
  match consume toks p .LBrace none with
  | (.error f, p1) => (.error f, p1)
  | (.ok _, p1) =>
    match parse_block_loop fuel toks [] p1 with
    | (.error f, p2) => (.error f, p2)
    | (.ok stmts, p2) =>
      match consume toks p2 .RBrace (some "You may be missing a semi colon") with
      | (.error f, p3) => (.error f, p3)
      | (.ok _, p3) => (.ok stmts, p3)

/-- The argument loop of `Parser::parse_arguments`. -/
def parse_arguments_loop : Nat → List Token → List (Token × ASTNode) →
    Nat → Except Failure (List (Token × ASTNode)) × Nat
  | 0, _, _, p => (.error (.panicked .fuelOut), p)
  | fuel + 1, toks, args, p =>
    match peek toks p with
    | none => (.ok args, p)
    | some token =>
      if token.token_type = .RParen then (.ok args, p)
      else
        match consume toks p .Identifier none with
        | (.error f, p1) => (.error f, p1)
        | (.ok name, p1) =>
          match consume toks p1 .Colon none with
          | (.error f, p2) => (.error f, p2)
          | (.ok _, p2) =>
            match parse_type toks p2 with
            | (.error f, p3) => (.error f, p3)
            | (.ok arg_type, p3) =>
              let args' := args ++ [(name, arg_type)]
              match match_token toks p3 .Comma with
              | (.error f, p4) => (.error f, p4)
              | (.ok true, p4) => parse_arguments_loop fuel toks args' p4
              | (.ok false, p4) => (.ok args', p4)

/-- `Parser::parse_arguments` from `parser.rs`. -/
def parse_arguments (fuel : Nat) (toks : List Token) (p : Nat) :
    Except Failure (List (Token × ASTNode)) × Nat :=
  parse_arguments_loop fuel toks [] p

/-- The part of `Parser::parse_function` after the modifier chain chose
`fmod`: the hard error when a second modifier follows (anchored at
`previous(pointer)`), then name, arguments, return type and body. -/
def parse_function_rest (fuel : Nat) (toks : List Token) (fmod : FunctionMode)
    (pm : Nat) : Except Failure ASTNode × Nat :=
  match multi_match_token toks pm [.Extern, .Export, .Private] with
      | (.error f, pm1) => (.error f, pm1)
      | (.ok true, pm1) =>
        match previous toks pm1 with
        | .error f => (.error f, pm1)
        | .ok none => (.error (.panicked .unwrapNone), pm1)
        | .ok (some prev) =>
          (.error (.code (CodeError.function_overloaded prev)), pm1)
      | (.ok false, pm1) =>
        match consume toks pm1 .Identifier none with
        | (.error f, q1) => (.error f, q1)
        | (.ok name, q1) =>
          match consume toks q1 .LParen none with
          | (.error f, q2) => (.error f, q2)
          | (.ok _, q2) =>
            match parse_arguments fuel toks q2 with
            | (.error f, q3) => (.error f, q3)
            | (.ok args, q3) =>
              match consume toks q3 .RParen none with
              | (.error f, q4) => (.error f, q4)
              | (.ok _, q4) =>
                match consume toks q4 .Colon none with
                | (.error f, q5) => (.error f, q5)
                | (.ok _, q5) =>
                  match parse_type toks q5 with
                  | (.error f, q6) => (.error f, q6)
                  | (.ok return_type, q6) =>
                    match parse_block fuel toks q6 with
                    | (.error f, q7) => (.error f, q7)
                    | (.ok body, q7) =>
                      (.ok (ASTNode.FunctionDef name fmod return_type args
                        body), q7)

/-- `Parser::parse_function` from `parser.rs`: the
`if match_token(Export) / else if match_token(Private) / else if
match_token(Extern) / else Default` modifier chain, then the rest. -/
def parse_function (fuel : Nat) (toks : List Token) (p : Nat) :
    Except Failure ASTNode × Nat :=
  match match_token toks p .Export with
  | (.error f, p1) => (.error f, p1)
  | (.ok true, p1) => parse_function_rest fuel toks .Export p1
  | (.ok false, p1) =>
    match match_token toks p1 .Private with
    | (.error f, p2) => (.error f, p2)
    | (.ok true, p2) => parse_function_rest fuel toks .Private p2
    | (.ok false, p2) =>
      match match_token toks p2 .Extern with
      | (.error f, p3) => (.error f, p3)
      | (.ok true, p3) => parse_function_rest fuel toks .Extern p3
      | (.ok false, p3) => parse_function_rest fuel toks .Default p3

/-- `Parser::parse` from `parser.rs`: the top-level loop over function
definitions and imports; any other leading token reaches
`CodeError::placeholder()`, which panics. -/
def parse : Nat → List Token → Nat → Except Failure (List ASTNode) × Nat
  | 0, _, p => (.error (.panicked .fuelOut), p)
  | fuel + 1, toks, p =>
    match peek toks p with
    | none => (.ok [], p)
    | some token =>
      match token.token_type with
      | .Define =>
        match parse_function fuel toks (advance toks p).2 with
        | (.error f, p2) => (.error f, p2)
        | (.ok func, p2) =>
          match parse fuel toks p2 with
          | (.error f, p3) => (.error f, p3)
          | (.ok rest, p3) => (.ok (func :: rest), p3)
      | .Import =>
        match parse_import toks p with
        | (.error f, p2) => (.error f, p2)
        | (.ok import_stmt, p2) =>
          match parse fuel toks p2 with
          | (.error f, p3) => (.error f, p3)
          | (.ok rest, p3) => (.ok (import_stmt :: rest), p3)
      | _ => (.error (.panicked .placeholderPanic), p)

end Parser

/-- Spec-side reading of "the token's `content` and `position` exactly
bound the characters consumed" (a necessary condition any reading shares):
the absolute span `idx_start..idx_end` must be at least as wide as the
token's content.  Identifier and number tokens satisfy it; the `String`
token of `"ab"` does not (its `idx_end` equals `idx_start`). -/
def spanCoversContent (t : Token) : Bool :=
  t.content.length ≤ t.code_position.idx_end - t.code_position.idx_start

/-- The tokens of `"x as i64"`: the word `as` is not in the keyword table
of `lexer.rs`, so it lexes as a plain `Identifier`. -/
def c2TokensAs : List Token :=
  [⟨"x", .Identifier, ⟨0, 1, 0, 0, 0, 1⟩⟩,
   ⟨"as", .Identifier, ⟨2, 4, 0, 0, 2, 4⟩⟩,
   ⟨"i64", .Identifier, ⟨5, 8, 0, 0, 5, 8⟩⟩]

/-- The tokens of `"x -> i64"`: `->` produces the `As` token (content is
its final character). -/
def c2TokensArrow : List Token :=
  [⟨"x", .Identifier, ⟨0, 1, 0, 0, 0, 1⟩⟩,
   ⟨">", .As, ⟨4, 4, 0, 0, 3, 4⟩⟩,
   ⟨"i64", .Identifier, ⟨5, 8, 0, 0, 5, 8⟩⟩]

/-- The tokens of `"1 + 2 -> i64"`. -/
def c2TokensSum : List Token :=
  [⟨"1", .NumberInt, ⟨0, 1, 0, 0, 0, 1⟩⟩,
   ⟨"+", .Plus, ⟨3, 3, 0, 0, 2, 3⟩⟩,
   ⟨"2", .NumberInt, ⟨4, 5, 0, 0, 4, 5⟩⟩,
   ⟨">", .As, ⟨8, 8, 0, 0, 7, 8⟩⟩,
   ⟨"i64", .Identifier, ⟨9, 12, 0, 0, 9, 12⟩⟩]

/-- The tokens of `"def f(): i32 { return f(1); }"`. -/
def c3Tokens : List Token :=
  [⟨"def", .Define, ⟨0, 3, 0, 0, 0, 3⟩⟩,
   ⟨"f", .Identifier, ⟨4, 5, 0, 0, 4, 5⟩⟩,
   ⟨"(", .LParen, ⟨6, 6, 0, 0, 5, 6⟩⟩,
   ⟨")", .RParen, ⟨7, 7, 0, 0, 6, 7⟩⟩,
   ⟨":", .Colon, ⟨8, 8, 0, 0, 7, 8⟩⟩,
   ⟨"i32", .Identifier, ⟨9, 12, 0, 0, 9, 12⟩⟩,
   ⟨"\x7b", .LBrace, ⟨14, 14, 0, 0, 13, 14⟩⟩,
   ⟨"return", .Return, ⟨15, 21, 0, 0, 15, 21⟩⟩,
   ⟨"f", .Identifier, ⟨22, 23, 0, 0, 22, 23⟩⟩,
   ⟨"(", .LParen, ⟨24, 24, 0, 0, 23, 24⟩⟩,
   ⟨"1", .NumberInt, ⟨24, 25, 0, 0, 24, 25⟩⟩,
   ⟨")", .RParen, ⟨26, 26, 0, 0, 25, 26⟩⟩,
   ⟨";", .SemiColon, ⟨27, 27, 0, 0, 26, 27⟩⟩,
   ⟨"\x7d", .RBrace, ⟨29, 29, 0, 0, 28, 29⟩⟩]

/-- The tokens of `"def f(): i32 { return x"` (closing brace omitted). -/
def c4Tokens : List Token :=
  [⟨"def", .Define, ⟨0, 3, 0, 0, 0, 3⟩⟩,
   ⟨"f", .Identifier, ⟨4, 5, 0, 0, 4, 5⟩⟩,
   ⟨"(", .LParen, ⟨6, 6, 0, 0, 5, 6⟩⟩,
   ⟨")", .RParen, ⟨7, 7, 0, 0, 6, 7⟩⟩,
   ⟨":", .Colon, ⟨8, 8, 0, 0, 7, 8⟩⟩,
   ⟨"i32", .Identifier, ⟨9, 12, 0, 0, 9, 12⟩⟩,
   ⟨"\x7b", .LBrace, ⟨14, 14, 0, 0, 13, 14⟩⟩,
   ⟨"return", .Return, ⟨15, 21, 0, 0, 15, 21⟩⟩,
   ⟨"x", .Identifier, ⟨22, 23, 0, 0, 22, 23⟩⟩]

/-- The tokens of `"def export private f(): i32 {}"`. -/
def c6Tokens : List Token :=
  [⟨"def", .Define, ⟨0, 3, 0, 0, 0, 3⟩⟩,
   ⟨"export", .Export, ⟨4, 10, 0, 0, 4, 10⟩⟩,
   ⟨"private", .Private, ⟨11, 18, 0, 0, 11, 18⟩⟩,
   ⟨"f", .Identifier, ⟨19, 20, 0, 0, 19, 20⟩⟩,
   ⟨"(", .LParen, ⟨21, 21, 0, 0, 20, 21⟩⟩,
   ⟨")", .RParen, ⟨22, 22, 0, 0, 21, 22⟩⟩,
   ⟨":", .Colon, ⟨23, 23, 0, 0, 22, 23⟩⟩,
   ⟨"i32", .Identifier, ⟨24, 27, 0, 0, 24, 27⟩⟩,
   ⟨"\x7b", .LBrace, ⟨29, 29, 0, 0, 28, 29⟩⟩,
   ⟨"\x7d", .RBrace, ⟨30, 30, 0, 0, 29, 30⟩⟩]

/-- The tokens of `"def export f(): i32 {}"`. -/
def c6TokensSingle : List Token :=
  [⟨"def", .Define, ⟨0, 3, 0, 0, 0, 3⟩⟩,
   ⟨"export", .Export, ⟨4, 10, 0, 0, 4, 10⟩⟩,
   ⟨"f", .Identifier, ⟨11, 12, 0, 0, 11, 12⟩⟩,
   ⟨"(", .LParen, ⟨13, 13, 0, 0, 12, 13⟩⟩,
   ⟨")", .RParen, ⟨14, 14, 0, 0, 13, 14⟩⟩,
   ⟨":", .Colon, ⟨15, 15, 0, 0, 14, 15⟩⟩,
   ⟨"i32", .Identifier, ⟨16, 19, 0, 0, 16, 19⟩⟩,
   ⟨"\x7b", .LBrace, ⟨21, 21, 0, 0, 20, 21⟩⟩,
   ⟨"\x7d", .RBrace, ⟨22, 22, 0, 0, 21, 22⟩⟩]

/-- The tokens of `"def f(): i32 {}"`. -/
def c6TokensNone : List Token :=
  [⟨"def", .Define, ⟨0, 3, 0, 0, 0, 3⟩⟩,
   ⟨"f", .Identifier, ⟨4, 5, 0, 0, 4, 5⟩⟩,
   ⟨"(", .LParen, ⟨6, 6, 0, 0, 5, 6⟩⟩,
   ⟨")", .RParen, ⟨7, 7, 0, 0, 6, 7⟩⟩,
   ⟨":", .Colon, ⟨8, 8, 0, 0, 7, 8⟩⟩,
   ⟨"i32", .Identifier, ⟨9, 12, 0, 0, 9, 12⟩⟩,
   ⟨"\x7b", .LBrace, ⟨14, 14, 0, 0, 13, 14⟩⟩,
   ⟨"\x7d", .RBrace, ⟨15, 15, 0, 0, 14, 15⟩⟩]

/-- The tokens of `"1 + 2 * 3"`. -/
def c8Tokens : List Token :=
  [⟨"1", .NumberInt, ⟨0, 1, 0, 0, 0, 1⟩⟩,
   ⟨"+", .Plus, ⟨3, 3, 0, 0, 2, 3⟩⟩,
   ⟨"2", .NumberInt, ⟨4, 5, 0, 0, 4, 5⟩⟩,
   ⟨"*", .Star, ⟨7, 7, 0, 0, 6, 7⟩⟩,
   ⟨"3", .NumberInt, ⟨8, 9, 0, 0, 8, 9⟩⟩]

/-- The tokens of `"1 - 2 + 3"` (equal precedence, for associativity). -/
def c8TokensAssoc : List Token :=
  [⟨"1", .NumberInt, ⟨0, 1, 0, 0, 0, 1⟩⟩,
   ⟨"-", .Minus, ⟨3, 3, 0, 0, 2, 3⟩⟩,
   ⟨"2", .NumberInt, ⟨4, 5, 0, 0, 4, 5⟩⟩,
   ⟨"+", .Plus, ⟨7, 7, 0, 0, 6, 7⟩⟩,
   ⟨"3", .NumberInt, ⟨8, 9, 0, 0, 8, 9⟩⟩]

/-- C1: evaluation of the code at the failing input of the claim.  The
claim (and the spec) say a single `#` opens a line comment ended by the
next newline, so `"# c\n x"` should yield one `Identifier` token for `x`;
the code instead peeks the *first* `#` again when testing for a second
`#`, always enters the multi-line branch, hunts for `##`, and consumes the
whole rest of the input: `tokenize` returns the empty token list. -/
theorem C1_single_hash_eval : tokenize "# c\n x" = .ok [] := by rfl

/-- C2 counterexample: `"x as i64"` does *not* parse as a `CastExpr`.  The
word `as` lexes as a plain `Identifier` (the keyword table has no `as`;
the `As` token is produced only by `->`), so `parse_expression` returns
just `Identifier(x)` and stops before `as`. -/
theorem C2_counterexample :
    tokenize "x as i64" = .ok c2TokensAs ∧
    Parser.parse_expression 100 c2TokensAs 0 =
      (.ok (ASTNode.Identifier ⟨"x", .Identifier, ⟨0, 1, 0, 0, 0, 1⟩⟩), 1) ∧
    (ASTNode.Identifier ⟨"x", .Identifier, ⟨0, 1, 0, 0, 0, 1⟩⟩).isCastExpr
      = false :=
  ⟨by rfl, by rfl, by rfl⟩

/-- C2 amended: with the actual cast operator `->` the claim's two shapes
hold: `"x -> i64"` parses as `CastExpr(Identifier(x), Type(i64))` and
`"1 + 2 -> i64"` parses as `CastExpr(BinaryOp(1,+,2), Type(i64))` — the
cast binds at the expression level, looser than the arithmetic tiers. -/
theorem C2_amended :
    tokenize "x -> i64" = .ok c2TokensArrow ∧
    Parser.parse_expression 100 c2TokensArrow 0 =
      (.ok (ASTNode.CastExpr
        (ASTNode.Identifier ⟨"x", .Identifier, ⟨0, 1, 0, 0, 0, 1⟩⟩)
        (ASTNode.TypeNode ⟨"i64", .Identifier, ⟨5, 8, 0, 0, 5, 8⟩⟩)), 3) ∧
    tokenize "1 + 2 -> i64" = .ok c2TokensSum ∧
    Parser.parse_expression 100 c2TokensSum 0 =
      (.ok (ASTNode.CastExpr
        (ASTNode.BinaryOp
          (ASTNode.Literal ⟨"1", .NumberInt, ⟨0, 1, 0, 0, 0, 1⟩⟩)
          ⟨"+", .Plus, ⟨3, 3, 0, 0, 2, 3⟩⟩
          (ASTNode.Literal ⟨"2", .NumberInt, ⟨4, 5, 0, 0, 4, 5⟩⟩))
        (ASTNode.TypeNode ⟨"i64", .Identifier, ⟨9, 12, 0, 0, 9, 12⟩⟩)), 5) :=
  ⟨by rfl, by rfl, by rfl, by rfl⟩

/-- C3: evaluation of the code at the failing input of the claim.  By the
grammar a call is a valid primary, so `return f(1);` should parse to
`Return(FunctionCall(f,[1]))`; but `parse_primary` has already advanced
past the identifier when it calls `match_next_token`, which therefore
inspects the token *after* the `(` (here `1`, not a `LParen`), so the call
branch is missed, `f` parses as a bare identifier, and the block then
fails to consume `}` at the `(` with an `UnexpectedToken` error. -/
theorem C3_call_primary_eval :
    tokenize "def f(): i32 \x7b return f(1); \x7d" = .ok c3Tokens ∧
    Parser.parse 100 c3Tokens 0 =
      (.error (.code (CodeError.new_unexpected_token_error
        ⟨"(", .LParen, ⟨24, 24, 0, 0, 23, 24⟩⟩ .RBrace
        (some "You may be missing a semi colon"))), 9) :=
  ⟨by rfl, by rfl⟩

/-- C4 counterexample: omitting the closing `}` raises an
`UnexpectedToken`-kind error (`ParserUnexpectedToken`), not a
`MissingToken`-kind one.  (The position *is* the last consumed token `x`,
as the claim says; only the kind is wrong: `is_done` compares
`pointer - 1` with the token count and the pointer never exceeds it, so
`consume` can never reach the missing-token path.) -/
theorem C4_counterexample :
    tokenize "def f(): i32 \x7b return x" = .ok c4Tokens ∧
    Parser.parse 100 c4Tokens 0 =
      (.error (.code (CodeError.new_unexpected_token_error
        ⟨"x", .Identifier, ⟨22, 23, 0, 0, 22, 23⟩⟩ .RBrace
        (some "You may be missing a semi colon"))), 9) ∧
    (CodeError.new_unexpected_token_error
        ⟨"x", .Identifier, ⟨22, 23, 0, 0, 22, 23⟩⟩ .RBrace
        (some "You may be missing a semi colon")).code_error_type
      = .ParserUnexpectedToken :=
  ⟨by rfl, by rfl, by rfl⟩

/-- C4 amended: a block whose closing `}` is omitted fails with an
`UnexpectedToken` error expecting `}`, carrying the note "You may be
missing a semi colon", positioned at the last token actually consumed
(here the final `x`). -/
theorem C4_amended :
    Parser.parse 100 c4Tokens 0 =
      (.error (.code (CodeError.new_unexpected_token_error
        ⟨"x", .Identifier, ⟨22, 23, 0, 0, 22, 23⟩⟩ .RBrace
        (some "You may be missing a semi colon"))), 9) ∧
    (CodeError.new_unexpected_token_error
        ⟨"x", .Identifier, ⟨22, 23, 0, 0, 22, 23⟩⟩ .RBrace
        (some "You may be missing a semi colon")).notes
      = ["You may be missing a semi colon"] ∧
    (CodeError.new_unexpected_token_error
        ⟨"x", .Identifier, ⟨22, 23, 0, 0, 22, 23⟩⟩ .RBrace
        (some "You may be missing a semi colon")).position
      = ⟨22, 23, 0, 0, 22, 23⟩ :=
  ⟨by rfl, by rfl, by rfl⟩

/-- C5 counterexample: the token of `tokenize("\"ab\"")` has
`idx_start = idx_end = 1` (the content's first index), an empty absolute
span that cannot bound the consumed characters, and a column span `2..4`
shifted one column right of the content: the claimed exact bounding
fails on the `String` kind. -/
theorem C5_counterexample :
    tokenize "\"ab\"" = .ok [⟨"ab", .String, ⟨1, 1, 0, 0, 2, 4⟩⟩] ∧
    spanCoversContent ⟨"ab", .String, ⟨1, 1, 0, 0, 2, 4⟩⟩ = false :=
  ⟨by rfl, by rfl⟩

/-- C5 amended: identifier, keyword and number tokens do bound their
consumed characters exactly (absolute and per-line spans); punctuation and
two-character operator tokens carry a one-column position at their final
character with `idx_start = idx_end` one past it (and a two-character
token's content is only its final character); a `String` token's content
is the text between the quotes but its absolute span is empty at the
content's start and its column span ends one past the closing quote. -/
theorem C5_amended :
    tokenize "ab" = .ok [⟨"ab", .Identifier, ⟨0, 2, 0, 0, 0, 2⟩⟩] ∧
    spanCoversContent ⟨"ab", .Identifier, ⟨0, 2, 0, 0, 0, 2⟩⟩ = true ∧
    tokenize "42" = .ok [⟨"42", .NumberInt, ⟨0, 2, 0, 0, 0, 2⟩⟩] ∧
    spanCoversContent ⟨"42", .NumberInt, ⟨0, 2, 0, 0, 0, 2⟩⟩ = true ∧
    tokenize "4.2" = .ok [⟨"4.2", .NumberFloat, ⟨0, 3, 0, 0, 0, 3⟩⟩] ∧
    tokenize "def" = .ok [⟨"def", .Define, ⟨0, 3, 0, 0, 0, 3⟩⟩] ∧
    tokenize "(" = .ok [⟨"(", .LParen, ⟨1, 1, 0, 0, 0, 1⟩⟩] ∧
    tokenize "->" = .ok [⟨">", .As, ⟨2, 2, 0, 0, 1, 2⟩⟩] ∧
    tokenize "\"ab\"" = .ok [⟨"ab", .String, ⟨1, 1, 0, 0, 2, 4⟩⟩] :=
  ⟨by rfl, by rfl, by rfl, by rfl, by rfl, by rfl, by rfl, by rfl, by rfl⟩

/-- C6 counterexample: parsing `"def export private f(): i32 {}"` raises
the "function modifiers may not be combined" error, but the parser anchors
it at `previous(pointer)` — the *first* modifier `export` (columns 4..10),
not the second modifier `private` (columns 11..18). -/
theorem C6_counterexample :
    tokenize "def export private f(): i32 \x7b\x7d" = .ok c6Tokens ∧
    Parser.parse 100 c6Tokens 0 =
      (.error (.code (CodeError.function_overloaded
        ⟨"export", .Export, ⟨4, 10, 0, 0, 4, 10⟩⟩)), 2) ∧
    (CodeError.function_overloaded
        ⟨"export", .Export, ⟨4, 10, 0, 0, 4, 10⟩⟩).position
      = ⟨4, 10, 0, 0, 4, 10⟩ ∧
    (⟨4, 10, 0, 0, 4, 10⟩ : CodePosition) ≠ ⟨11, 18, 0, 0, 11, 18⟩ :=
  ⟨by rfl, by rfl, by rfl, by decide⟩

/-- C6 amended: a second modifier after `def` is a hard "function
modifiers may not be combined" error, but it is positioned at the *first*
modifier token (the one already consumed); a single modifier is accepted
(mode `Export` here) and no modifier yields `FunctionMode.Default`. -/
theorem C6_amended :
    Parser.parse 100 c6Tokens 0 =
      (.error (.code (CodeError.function_overloaded
        ⟨"export", .Export, ⟨4, 10, 0, 0, 4, 10⟩⟩)), 2) ∧
    tokenize "def export f(): i32 \x7b\x7d" = .ok c6TokensSingle ∧
    Parser.parse 100 c6TokensSingle 0 =
      (.ok [ASTNode.FunctionDef ⟨"f", .Identifier, ⟨11, 12, 0, 0, 11, 12⟩⟩
        .Export
        (ASTNode.TypeNode ⟨"i32", .Identifier, ⟨16, 19, 0, 0, 16, 19⟩⟩)
        [] []], 9) ∧
    tokenize "def f(): i32 \x7b\x7d" = .ok c6TokensNone ∧
    Parser.parse 100 c6TokensNone 0 =
      (.ok [ASTNode.FunctionDef ⟨"f", .Identifier, ⟨4, 5, 0, 0, 4, 5⟩⟩
        .Default
        (ASTNode.TypeNode ⟨"i32", .Identifier, ⟨9, 12, 0, 0, 9, 12⟩⟩)
        [] []], 8) :=
  ⟨by rfl, by rfl, by rfl, by rfl, by rfl⟩

/-- C7: evaluation of the code at the failing input of the claim.  On
`"@"` the tokenizer calls `this_as_codepos2` *before* popping the
character, with `line_idx = 0`, and `CodePosition::one_char` computes
`line_idx - 1` on a `usize`: a checked build panics on the underflow
instead of returning the `UnknownChar` error the claim (and spec)
describe. -/
theorem C7_unknown_char_eval :
    tokenize "@" = .error (.panicked .usizeUnderflow) := by rfl

/-- C8: `"1 + 2 * 3"` parses as `BinaryOp(1, +, BinaryOp(2, *, 3))` — the
`*`/`/` tier binds tighter than `+`/`-` — and `"1 - 2 + 3"` parses as
`BinaryOp(BinaryOp(1, -, 2), +, 3)` — equal precedence associates to the
left. -/
theorem C8_precedence :
    tokenize "1 + 2 * 3" = .ok c8Tokens ∧
    Parser.parse_expression 100 c8Tokens 0 =
      (.ok (ASTNode.BinaryOp
        (ASTNode.Literal ⟨"1", .NumberInt, ⟨0, 1, 0, 0, 0, 1⟩⟩)
        ⟨"+", .Plus, ⟨3, 3, 0, 0, 2, 3⟩⟩
        (ASTNode.BinaryOp
          (ASTNode.Literal ⟨"2", .NumberInt, ⟨4, 5, 0, 0, 4, 5⟩⟩)
          ⟨"*", .Star, ⟨7, 7, 0, 0, 6, 7⟩⟩
          (ASTNode.Literal ⟨"3", .NumberInt, ⟨8, 9, 0, 0, 8, 9⟩⟩))), 5) ∧
    tokenize "1 - 2 + 3" = .ok c8TokensAssoc ∧
    Parser.parse_expression 100 c8TokensAssoc 0 =
      (.ok (ASTNode.BinaryOp
        (ASTNode.BinaryOp
          (ASTNode.Literal ⟨"1", .NumberInt, ⟨0, 1, 0, 0, 0, 1⟩⟩)
          ⟨"-", .Minus, ⟨3, 3, 0, 0, 2, 3⟩⟩
          (ASTNode.Literal ⟨"2", .NumberInt, ⟨4, 5, 0, 0, 4, 5⟩⟩))
        ⟨"+", .Plus, ⟨7, 7, 0, 0, 6, 7⟩⟩
        (ASTNode.Literal ⟨"3", .NumberInt, ⟨8, 9, 0, 0, 8, 9⟩⟩)), 5) :=
  ⟨by rfl, by rfl, by rfl, by rfl⟩

/-- C9: a zero-argument call is not representable.  For *every* token
sequence of the form `Identifier LParen RParen` (in statement position,
i.e. after at least one already-consumed token, which is how
`parse_statement` is always reached), `parse_function_call` attempts a
first argument expression before checking for `)`, `parse_primary`
consumes the `RParen`, and parsing fails with an `UnexpectedToken` error
expecting an `Expression` at that `RParen` — never
`FunctionCall(f, [])`. -/
theorem C9_zero_arg_call (pad : Token) (c1 c2 c3 : String)
    (q1 q2 q3 : CodePosition) :
    Parser.parse_statement 100
      [pad, ⟨c1, .Identifier, q1⟩, ⟨c2, .LParen, q2⟩, ⟨c3, .RParen, q3⟩]
      1 =
    (.error (.code (CodeError.new_unexpected_token_error
      ⟨c3, .RParen, q3⟩ .Expression
      (some "You may add a literal (number), string, variable, or a term here"))),
     4) := by rfl


/-- The failure is not the `is_done` underflow panic. -/
def NoUfF (f : Failure) : Prop :=
  f ≠ .panicked .isDoneUnderflow

/-- The outcome is not the `is_done` underflow panic. -/
def NoUf {α : Type} (e : Except Failure α) : Prop :=
  ∀ f, e = .error f → NoUfF f

/-- The run result keeps the cursor at least `1` and its outcome is free
of the `is_done` underflow panic. -/
def Safe1 {α : Type} (r : Except Failure α × Nat) : Prop :=
  1 ≤ r.2 ∧ NoUf r.1

theorem noUf_error {α : Type} {f : Failure} (h : NoUfF f) :
    NoUf (Except.error f : Except Failure α) := by
  intro g hg
  injection hg with hfg
  exact hfg ▸ h

theorem noUf_ok {α : Type} (a : α) :
    NoUf (Except.ok a : Except Failure α) := by
  intro g hg
  exact Except.noConfusion hg

theorem noUf_code {α : Type} (e : CodeError) :
    NoUf (Except.error (Failure.code e) : Except Failure α) :=
  noUf_error (by simp [NoUfF])

theorem noUf_panic {α : Type} {k : PanicKind} (h : k ≠ .isDoneUnderflow) :
    NoUf (Except.error (Failure.panicked k) : Except Failure α) :=
  noUf_error (by simp [NoUfF, h])

theorem advance_ge (toks : List Token) (p : Nat) :
    p ≤ (Parser.advance toks p).2 := by
  unfold Parser.advance
  rcases toks.get? p with _ | t <;> simp

theorem previous_noUf (toks : List Token) (p : Nat) :
    NoUf (Parser.previous toks p) := by
  unfold Parser.previous
  rcases p with _ | q
  · exact noUf_panic (by decide)
  · exact noUf_ok _

theorem subChecked_noUf (a b : Nat) : NoUf (subChecked a b) := by
  unfold subChecked
  split
  · exact noUf_ok _
  · exact noUf_panic (by decide)

theorem is_done_err_noUf (toks : List Token) (q : Nat) :
    NoUf (Parser.is_done_err toks (q + 1)) := by
  unfold Parser.is_done_err Parser.is_done Parser.previous
  by_cases hq : q = toks.length
  · rcases hg : toks.get? q with _ | t <;>
      simp [hq, hg] <;>
      exact fun f hf => by injection hf with h; simp [← h, NoUfF]
  · simp [hq]
    exact noUf_ok _

theorem is_done_err_noUf_of (toks : List Token) (p : Nat) (hp : 1 ≤ p) :
    NoUf (Parser.is_done_err toks p) := by
  obtain ⟨q, rfl⟩ : ∃ q, p = q + 1 := ⟨p - 1, by omega⟩
  exact is_done_err_noUf toks q

theorem match_token_safe (toks : List Token) (p : Nat) (tt : TokenType)
    (hp : 1 ≤ p) : Safe1 (Parser.match_token toks p tt) := by
  unfold Parser.match_token
  split
  · rename_i f hd
    exact ⟨hp, noUf_error (is_done_err_noUf_of toks p hp f hd)⟩
  · split
    · split
      · exact ⟨le_trans hp (advance_ge toks p), noUf_ok _⟩
      · exact ⟨hp, noUf_ok _⟩
    · exact ⟨hp, noUf_ok _⟩

theorem multi_match_token_safe (toks : List Token) (p : Nat)
    (tts : List TokenType) (hp : 1 ≤ p) :
    Safe1 (Parser.multi_match_token toks p tts) := by
  unfold Parser.multi_match_token
  split
  · rename_i f hd
    exact ⟨hp, noUf_error (is_done_err_noUf_of toks p hp f hd)⟩
  · split
    · split
      · exact ⟨hp, noUf_ok _⟩
      · exact ⟨hp, noUf_ok _⟩
    · exact ⟨hp, noUf_ok _⟩

theorem match_next_token_safe (toks : List Token) (p : Nat) (tt : TokenType)
    (hp : 1 ≤ p) : Safe1 (Parser.match_next_token toks p tt) := by
  unfold Parser.match_next_token
  split
  · rename_i f hd
    exact ⟨hp, noUf_error (is_done_err_noUf_of toks p hp f hd)⟩
  · split
    · split
      · exact ⟨le_trans hp (advance_ge toks p), noUf_ok _⟩
      · exact ⟨hp, noUf_ok _⟩
    · exact ⟨hp, noUf_ok _⟩

theorem consume_safe (toks : List Token) (p : Nat) (expected : TokenType)
    (note : Option String) (hp : 1 ≤ p) :
    Safe1 (Parser.consume toks p expected note) := by
  unfold Parser.consume
  split
  · rename_i f hd
    exact ⟨hp, noUf_error (is_done_err_noUf_of toks p hp f hd)⟩
  · split
    · rename_i f p' hd
      have h := match_token_safe toks p expected hp
      rw [hd] at h
      exact ⟨h.1, noUf_error (h.2 f rfl)⟩
    · rename_i p' hd
      have h := match_token_safe toks p expected hp
      rw [hd] at h
      split
      · rename_i f hprev
        exact ⟨h.1, noUf_error (previous_noUf toks p' f hprev)⟩
      · exact ⟨h.1, noUf_panic (by decide)⟩
      · exact ⟨h.1, noUf_ok _⟩
    · rename_i p' hd
      have h := match_token_safe toks p expected hp
      rw [hd] at h
      split
      · rename_i f hprev
        exact ⟨h.1, noUf_error (previous_noUf toks p' f hprev)⟩
      · split
        · exact ⟨h.1, noUf_panic (by decide)⟩
        · exact ⟨h.1, noUf_code _⟩

theorem codepos_noUf (toks : List Token) (s e k : Nat) :
    NoUf (Parser.codepos_from_space toks s e k) := by
  unfold Parser.codepos_from_space
  split
  · exact noUf_panic (by decide)
  · split
    · rename_i f hd
      exact noUf_error (subChecked_noUf e k f hd)
    · split
      · exact noUf_panic (by decide)
      · exact noUf_ok _

theorem parse_type_safe (toks : List Token) (p : Nat) (hp : 1 ≤ p) :
    Safe1 (Parser.parse_type toks p) := by
  unfold Parser.parse_type
  split
  · rename_i f p' hd
    have h := consume_safe toks p .Identifier none hp
    rw [hd] at h
    exact ⟨h.1, noUf_error (h.2 f rfl)⟩
  · rename_i t p' hd
    have h := consume_safe toks p .Identifier none hp
    rw [hd] at h
    exact ⟨h.1, noUf_ok _⟩

theorem parse_import_safe (toks : List Token) (p : Nat) (hp : 1 ≤ p) :
    Safe1 (Parser.parse_import toks p) := by
  unfold Parser.parse_import
  split
  · rename_i f p1 hd
    have h := consume_safe toks p .Import none hp
    rw [hd] at h
    exact ⟨h.1, noUf_error (h.2 f rfl)⟩
  · rename_i t p1 hd
    have h := consume_safe toks p .Import none hp
    rw [hd] at h
    split
    · rename_i f p2 hd2
      have h2 := consume_safe toks p1 .Identifier none h.1
      rw [hd2] at h2
      exact ⟨h2.1, noUf_error (h2.2 f rfl)⟩
    · rename_i t2 p2 hd2
      have h2 := consume_safe toks p1 .Identifier none h.1
      rw [hd2] at h2
      exact ⟨h2.1, noUf_ok _⟩

/-- The expression-parsing cluster never raises the `is_done` underflow
panic, and keeps the cursor at least `1`, once the cursor is at least `1`
(every `is_done` check inside happens at the current cursor, which only
ever advances). -/
theorem cluster_safe : ∀ fuel : Nat,
    (∀ toks p, 1 ≤ p → Safe1 (Parser.parse_expression fuel toks p)) ∧
    (∀ toks p, 1 ≤ p → Safe1 (Parser.parse_term fuel toks p)) ∧
    (∀ toks node p, 1 ≤ p → Safe1 (Parser.parse_term_loop fuel toks node p)) ∧
    (∀ toks p, 1 ≤ p → Safe1 (Parser.parse_factor fuel toks p)) ∧
    (∀ toks node p, 1 ≤ p →
      Safe1 (Parser.parse_factor_loop fuel toks node p)) ∧
    (∀ toks p, 1 ≤ p → Safe1 (Parser.parse_primary fuel toks p)) ∧
    (∀ toks p, 1 ≤ p → Safe1 (Parser.parse_function_call fuel toks p)) ∧
    (∀ toks name paras p, 1 ≤ p →
      Safe1 (Parser.parse_function_call_loop fuel toks name paras p))
  | 0 => by
    refine ⟨fun toks p hp => ?_, fun toks p hp => ?_,
           fun toks node p hp => ?_, fun toks p hp => ?_,
           fun toks node p hp => ?_, fun toks p hp => ?_,
           fun toks p hp => ?_, fun toks name paras p hp => ?_⟩ <;>
      exact ⟨hp, noUf_panic (by decide)⟩
  | fuel + 1 => by
    obtain ⟨ihE, ihT, ihTL, ihF, ihFL, ihP, ihC, ihCL⟩ := cluster_safe fuel
    refine ⟨?_, ?_, ?_, ?_, ?_, ?_, ?_, ?_⟩
    · -- parse_expression
      intro toks p hp
      unfold Parser.parse_expression
      split
      · rename_i f p1 hd
        have h := ihT toks p hp
        rw [hd] at h
        exact ⟨h.1, noUf_error (h.2 f rfl)⟩
      · rename_i term p1 hd
        have h := ihT toks p hp
        rw [hd] at h
        split
        · rename_i f p2 hd2
          have h2 := match_token_safe toks p1 .As h.1
          rw [hd2] at h2
          exact ⟨h2.1, noUf_error (h2.2 f rfl)⟩
        · rename_i p2 hd2
          have h2 := match_token_safe toks p1 .As h.1
          rw [hd2] at h2
          split
          · rename_i f p3 hd3
            have h3 := parse_type_safe toks p2 h2.1
            rw [hd3] at h3
            exact ⟨h3.1, noUf_error (h3.2 f rfl)⟩
          · rename_i ty p3 hd3
            have h3 := parse_type_safe toks p2 h2.1
            rw [hd3] at h3
            exact ⟨h3.1, noUf_ok _⟩
        · rename_i p2 hd2
          have h2 := match_token_safe toks p1 .As h.1
          rw [hd2] at h2
          exact ⟨h2.1, noUf_ok _⟩
    · -- parse_term
      intro toks p hp
      unfold Parser.parse_term
      split
      · rename_i f p1 hd
        have h := ihF toks p hp
        rw [hd] at h
        exact ⟨h.1, noUf_error (h.2 f rfl)⟩
      · rename_i node p1 hd
        have h := ihF toks p hp
        rw [hd] at h
        exact ihTL toks node p1 h.1
    · -- parse_term_loop
      intro toks node p hp
      unfold Parser.parse_term_loop
      split
      · -- peek = some token
        split
        · -- Plus arm
          split
          · rename_i p1 hd
            have ha := advance_ge toks p
            rw [hd] at ha
            exact ⟨le_trans hp ha, noUf_panic (by decide)⟩
          · rename_i op p1 hd
            have ha := advance_ge toks p
            rw [hd] at ha
            have hp1 : 1 ≤ p1 := le_trans hp ha
            split
            · rename_i f p2 hd2
              have h2 := ihF toks p1 hp1
              rw [hd2] at h2
              exact ⟨h2.1, noUf_error (h2.2 f rfl)⟩
            · rename_i right p2 hd2
              have h2 := ihF toks p1 hp1
              rw [hd2] at h2
              exact ihTL toks _ p2 h2.1
        · -- Minus arm
          split
          · rename_i p1 hd
            have ha := advance_ge toks p
            rw [hd] at ha
            exact ⟨le_trans hp ha, noUf_panic (by decide)⟩
          · rename_i op p1 hd
            have ha := advance_ge toks p
            rw [hd] at ha
            have hp1 : 1 ≤ p1 := le_trans hp ha
            split
            · rename_i f p2 hd2
              have h2 := ihF toks p1 hp1
              rw [hd2] at h2
              exact ⟨h2.1, noUf_error (h2.2 f rfl)⟩
            · rename_i right p2 hd2
              have h2 := ihF toks p1 hp1
              rw [hd2] at h2
              exact ihTL toks _ p2 h2.1
        · exact ⟨hp, noUf_ok _⟩
      · exact ⟨hp, noUf_ok _⟩
    · -- parse_factor
      intro toks p hp
      unfold Parser.parse_factor
      split
      · rename_i f p1 hd
        have h := ihP toks p hp
        rw [hd] at h
        exact ⟨h.1, noUf_error (h.2 f rfl)⟩
      · rename_i node p1 hd
        have h := ihP toks p hp
        rw [hd] at h
        exact ihFL toks node p1 h.1
    · -- parse_factor_loop
      intro toks node p hp
      unfold Parser.parse_factor_loop
      split
      · split
        · -- Star arm
          split
          · rename_i p1 hd
            have ha := advance_ge toks p
            rw [hd] at ha
            exact ⟨le_trans hp ha, noUf_panic (by decide)⟩
          · rename_i op p1 hd
            have ha := advance_ge toks p
            rw [hd] at ha
            have hp1 : 1 ≤ p1 := le_trans hp ha
            split
            · rename_i f p2 hd2
              have h2 := ihP toks p1 hp1
              rw [hd2] at h2
              exact ⟨h2.1, noUf_error (h2.2 f rfl)⟩
            · rename_i right p2 hd2
              have h2 := ihP toks p1 hp1
              rw [hd2] at h2
              exact ihFL toks _ p2 h2.1
        · -- Slash arm
          split
          · rename_i p1 hd
            have ha := advance_ge toks p
            rw [hd] at ha
            exact ⟨le_trans hp ha, noUf_panic (by decide)⟩
          · rename_i op p1 hd
            have ha := advance_ge toks p
            rw [hd] at ha
            have hp1 : 1 ≤ p1 := le_trans hp ha
            split
            · rename_i f p2 hd2
              have h2 := ihP toks p1 hp1
              rw [hd2] at h2
              exact ⟨h2.1, noUf_error (h2.2 f rfl)⟩
            · rename_i right p2 hd2
              have h2 := ihP toks p1 hp1
              rw [hd2] at h2
              exact ihFL toks _ p2 h2.1
        · exact ⟨hp, noUf_ok _⟩
      · exact ⟨hp, noUf_ok _⟩
    · -- parse_primary
      intro toks p hp
      unfold Parser.parse_primary
      split
      · -- advance = (some token, p1)
        rename_i token p1 hd
        have ha := advance_ge toks p
        rw [hd] at ha
        have hp1 : 1 ≤ p1 := le_trans hp ha
        split
        · exact ⟨hp1, noUf_ok _⟩
        · exact ⟨hp1, noUf_ok _⟩
        · -- Identifier
          split
          · rename_i f p2 hd2
            have h2 := match_next_token_safe toks p1 .LParen hp1
            rw [hd2] at h2
            exact ⟨h2.1, noUf_error (h2.2 f rfl)⟩
          · rename_i p2 hd2
            have h2 := match_next_token_safe toks p1 .LParen hp1
            rw [hd2] at h2
            exact ihC toks p2 h2.1
          · rename_i p2 hd2
            have h2 := match_next_token_safe toks p1 .LParen hp1
            rw [hd2] at h2
            exact ⟨h2.1, noUf_ok _⟩
        · exact ⟨hp1, noUf_ok _⟩
        · -- LParen
          split
          · rename_i f p2 hd2
            have h2 := ihE toks p1 hp1
            rw [hd2] at h2
            exact ⟨h2.1, noUf_error (h2.2 f rfl)⟩
          · rename_i expr p2 hd2
            have h2 := ihE toks p1 hp1
            rw [hd2] at h2
            split
            · rename_i f p3 hd3
              have h3 := match_token_safe toks p2 .RParen h2.1
              rw [hd3] at h3
              exact ⟨h3.1, noUf_error (h3.2 f rfl)⟩
            · rename_i p3 hd3
              have h3 := match_token_safe toks p2 .RParen h2.1
              rw [hd3] at h3
              exact ⟨h3.1, noUf_ok _⟩
            · rename_i p3 hd3
              have h3 := match_token_safe toks p2 .RParen h2.1
              rw [hd3] at h3
              exact ⟨h3.1, noUf_panic (by decide)⟩
        · -- other token kinds
          split
          · rename_i f hprev
            exact ⟨hp1, noUf_error (previous_noUf toks p1 f hprev)⟩
          · exact ⟨hp1, noUf_panic (by decide)⟩
          · exact ⟨hp1, noUf_code _⟩
      · -- advance = (none, p1)
        rename_i p1 hd
        have ha := advance_ge toks p
        rw [hd] at ha
        have hp1 : 1 ≤ p1 := le_trans hp ha
        split
        · rename_i f hprev
          exact ⟨hp1, noUf_error (previous_noUf toks p1 f hprev)⟩
        · exact ⟨hp1, noUf_panic (by decide)⟩
        · exact ⟨hp1, noUf_code _⟩
    · -- parse_function_call
      intro toks p hp
      unfold Parser.parse_function_call
      split
      · rename_i f hprev
        exact ⟨hp, noUf_error (previous_noUf toks p f hprev)⟩
      · exact ⟨hp, noUf_panic (by decide)⟩
      · rename_i name hprev
        split
        · rename_i f p1 hd
          have h := consume_safe toks p .LParen none hp
          rw [hd] at h
          exact ⟨h.1, noUf_error (h.2 f rfl)⟩
        · rename_i t p1 hd
          have h := consume_safe toks p .LParen none hp
          rw [hd] at h
          exact ihCL toks name [] p1 h.1
    · -- parse_function_call_loop
      intro toks name paras p hp
      unfold Parser.parse_function_call_loop
      split
      · exact ⟨hp, noUf_ok _⟩
      · split
        · rename_i f p1 hd
          have h := ihE toks p hp
          rw [hd] at h
          exact ⟨h.1, noUf_error (h.2 f rfl)⟩
        · rename_i e p1 hd
          have h := ihE toks p hp
          rw [hd] at h
          split
          · rename_i f p2 hd2
            have h2 := match_token_safe toks p1 .RParen h.1
            rw [hd2] at h2
            exact ⟨h2.1, noUf_error (h2.2 f rfl)⟩
          · rename_i p2 hd2
            have h2 := match_token_safe toks p1 .RParen h.1
            rw [hd2] at h2
            exact ⟨h2.1, noUf_ok _⟩
          · rename_i p2 hd2
            have h2 := match_token_safe toks p1 .RParen h.1
            rw [hd2] at h2
            split
            · rename_i f p3 hd3
              have h3 := consume_safe toks p2 .Comma (some "Add a comma") h2.1
              rw [hd3] at h3
              exact ⟨h3.1, noUf_error (h3.2 f rfl)⟩
            · rename_i t p3 hd3
              have h3 := consume_safe toks p2 .Comma (some "Add a comma") h2.1
              rw [hd3] at h3
              exact ihCL toks name _ p3 h3.1

theorem parse_return_safe (fuel : Nat) (toks : List Token) (p : Nat)
    (hp : 1 ≤ p) : Safe1 (Parser.parse_return fuel toks p) := by
  unfold Parser.parse_return
  split
  · rename_i f p1 hd
    have h := consume_safe toks p .Return none hp
    rw [hd] at h
    exact ⟨h.1, noUf_error (h.2 f rfl)⟩
  · rename_i t p1 hd
    have h := consume_safe toks p .Return none hp
    rw [hd] at h
    split
    · rename_i f p2 hd2
      have h2 := (cluster_safe fuel).1 toks p1 h.1
      rw [hd2] at h2
      exact ⟨h2.1, noUf_error (h2.2 f rfl)⟩
    · rename_i e p2 hd2
      have h2 := (cluster_safe fuel).1 toks p1 h.1
      rw [hd2] at h2
      exact ⟨h2.1, noUf_ok _⟩

theorem parse_statement_safe (fuel : Nat) (toks : List Token) (p : Nat)
    (hp : 1 ≤ p) : Safe1 (Parser.parse_statement fuel toks p) := by
  obtain ⟨ihE, _, _, _, _, _, ihC, _⟩ := cluster_safe fuel
  unfold Parser.parse_statement
  split
  · -- peek = some token
    split
    · -- Identifier
      split
      · rename_i f p1 hd
        have h := match_next_token_safe toks p .LParen hp
        rw [hd] at h
        exact ⟨h.1, noUf_error (h.2 f rfl)⟩
      · rename_i p1 hd
        have h := match_next_token_safe toks p .LParen hp
        rw [hd] at h
        exact ihC toks p1 h.1
      · rename_i p1 hd
        have h := match_next_token_safe toks p .LParen hp
        rw [hd] at h
        split
        · rename_i res p2 hd2
          have h2 := ihE toks p1 h.1
          rw [hd2] at h2
          dsimp only
          split
          · rename_i f hcp
            exact ⟨h2.1, noUf_error (codepos_noUf toks p1 p2 1 f hcp)⟩
          · exact ⟨h2.1, h2.2⟩
    · -- NumberInt
      split
      · rename_i res p2 hd2
        have h2 := ihE toks p hp
        rw [hd2] at h2
        dsimp only
        split
        · rename_i f hcp
          exact ⟨h2.1, noUf_error (codepos_noUf toks p p2 1 f hcp)⟩
        · exact ⟨h2.1, h2.2⟩
    · -- NumberFloat
      split
      · rename_i res p2 hd2
        have h2 := ihE toks p hp
        rw [hd2] at h2
        dsimp only
        split
        · rename_i f hcp
          exact ⟨h2.1, noUf_error (codepos_noUf toks p p2 1 f hcp)⟩
        · exact ⟨h2.1, h2.2⟩
    · -- Return
      exact parse_return_safe fuel toks p hp
    · -- other statement-leading tokens
      exact ⟨hp, noUf_code _⟩
  · -- peek = none
    split
    · rename_i f hprev
      exact ⟨hp, noUf_error (previous_noUf toks p f hprev)⟩
    · exact ⟨hp, noUf_panic (by decide)⟩
    · exact ⟨hp, noUf_code _⟩

theorem parse_block_loop_safe : ∀ (fuel : Nat) (toks : List Token)
    (stmts : List ASTNode) (p : Nat), 1 ≤ p →
    Safe1 (Parser.parse_block_loop fuel toks stmts p)
  | 0, _, _, p, hp => ⟨hp, noUf_panic (by decide)⟩
  | fuel + 1, toks, stmts, p, hp => by
    unfold Parser.parse_block_loop
    split
    · exact ⟨hp, noUf_ok _⟩
    · split
      · exact ⟨hp, noUf_ok _⟩
      · split
        · rename_i f p1 hd
          have h := parse_statement_safe fuel toks p hp
          rw [hd] at h
          exact ⟨h.1, noUf_error (h.2 f rfl)⟩
        · rename_i stmt p1 hd
          have h := parse_statement_safe fuel toks p hp
          rw [hd] at h
          split
          · rename_i f p2 hd2
            have h2 := match_token_safe toks p1 .SemiColon h.1
            rw [hd2] at h2
            exact ⟨h2.1, noUf_error (h2.2 f rfl)⟩
          · rename_i p2 hd2
            have h2 := match_token_safe toks p1 .SemiColon h.1
            rw [hd2] at h2
            exact parse_block_loop_safe fuel toks _ p2 h2.1
          · rename_i p2 hd2
            have h2 := match_token_safe toks p1 .SemiColon h.1
            rw [hd2] at h2
            exact ⟨h2.1, noUf_ok _⟩

theorem parse_block_safe (fuel : Nat) (toks : List Token) (p : Nat)
    (hp : 1 ≤ p) : Safe1 (Parser.parse_block fuel toks p) := by
  unfold Parser.parse_block
  split
  · rename_i f p1 hd
    have h := consume_safe toks p .LBrace none hp
    rw [hd] at h
    exact ⟨h.1, noUf_error (h.2 f rfl)⟩
  · rename_i t p1 hd
    have h := consume_safe toks p .LBrace none hp
    rw [hd] at h
    split
    · rename_i f p2 hd2
      have h2 := parse_block_loop_safe fuel toks [] p1 h.1
      rw [hd2] at h2
      exact ⟨h2.1, noUf_error (h2.2 f rfl)⟩
    · rename_i stmts p2 hd2
      have h2 := parse_block_loop_safe fuel toks [] p1 h.1
      rw [hd2] at h2
      split
      · rename_i f p3 hd3
        have h3 := consume_safe toks p2 .RBrace
          (some "You may be missing a semi colon") h2.1
        rw [hd3] at h3
        exact ⟨h3.1, noUf_error (h3.2 f rfl)⟩
      · rename_i t3 p3 hd3
        have h3 := consume_safe toks p2 .RBrace
          (some "You may be missing a semi colon") h2.1
        rw [hd3] at h3
        exact ⟨h3.1, noUf_ok _⟩

theorem parse_arguments_loop_safe : ∀ (fuel : Nat) (toks : List Token)
    (args : List (Token × ASTNode)) (p : Nat), 1 ≤ p →
    Safe1 (Parser.parse_arguments_loop fuel toks args p)
  | 0, _, _, p, hp => ⟨hp, noUf_panic (by decide)⟩
  | fuel + 1, toks, args, p, hp => by
    unfold Parser.parse_arguments_loop
    split
    · exact ⟨hp, noUf_ok _⟩
    · split
      · exact ⟨hp, noUf_ok _⟩
      · split
        · rename_i f p1 hd
          have h := consume_safe toks p .Identifier none hp
          rw [hd] at h
          exact ⟨h.1, noUf_error (h.2 f rfl)⟩
        · rename_i name p1 hd
          have h := consume_safe toks p .Identifier none hp
          rw [hd] at h
          split
          · rename_i f p2 hd2
            have h2 := consume_safe toks p1 .Colon none h.1
            rw [hd2] at h2
            exact ⟨h2.1, noUf_error (h2.2 f rfl)⟩
          · rename_i t2 p2 hd2
            have h2 := consume_safe toks p1 .Colon none h.1
            rw [hd2] at h2
            split
            · rename_i f p3 hd3
              have h3 := parse_type_safe toks p2 h2.1
              rw [hd3] at h3
              exact ⟨h3.1, noUf_error (h3.2 f rfl)⟩
            · rename_i ty p3 hd3
              have h3 := parse_type_safe toks p2 h2.1
              rw [hd3] at h3
              split
              · rename_i f p4 hd4
                have h4 := match_token_safe toks p3 .Comma h3.1
                rw [hd4] at h4
                exact ⟨h4.1, noUf_error (h4.2 f rfl)⟩
              · rename_i p4 hd4
                have h4 := match_token_safe toks p3 .Comma h3.1
                rw [hd4] at h4
                exact parse_arguments_loop_safe fuel toks _ p4 h4.1
              · rename_i p4 hd4
                have h4 := match_token_safe toks p3 .Comma h3.1
                rw [hd4] at h4
                exact ⟨h4.1, noUf_ok _⟩

theorem parse_arguments_safe (fuel : Nat) (toks : List Token) (p : Nat)
    (hp : 1 ≤ p) : Safe1 (Parser.parse_arguments fuel toks p) :=
  parse_arguments_loop_safe fuel toks [] p hp

theorem parse_function_rest_safe (fuel : Nat) (toks : List Token)
    (fmod : FunctionMode) (pm : Nat) (hp : 1 ≤ pm) :
    Safe1 (Parser.parse_function_rest fuel toks fmod pm) := by
  unfold Parser.parse_function_rest
  split
  · rename_i f pm1 hd
    have h := multi_match_token_safe toks pm [.Extern, .Export, .Private] hp
    rw [hd] at h
    exact ⟨h.1, noUf_error (h.2 f rfl)⟩
  · rename_i pm1 hd
    have h := multi_match_token_safe toks pm [.Extern, .Export, .Private] hp
    rw [hd] at h
    split
    · rename_i f hprev
      exact ⟨h.1, noUf_error (previous_noUf toks pm1 f hprev)⟩
    · exact ⟨h.1, noUf_panic (by decide)⟩
    · exact ⟨h.1, noUf_code _⟩
  · rename_i pm1 hd
    have h := multi_match_token_safe toks pm [.Extern, .Export, .Private] hp
    rw [hd] at h
    split
    · rename_i f q1 hd1
      have h1 := consume_safe toks pm1 .Identifier none h.1
      rw [hd1] at h1
      exact ⟨h1.1, noUf_error (h1.2 f rfl)⟩
    · rename_i name q1 hd1
      have h1 := consume_safe toks pm1 .Identifier none h.1
      rw [hd1] at h1
      split
      · rename_i f q2 hd2
        have h2 := consume_safe toks q1 .LParen none h1.1
        rw [hd2] at h2
        exact ⟨h2.1, noUf_error (h2.2 f rfl)⟩
      · rename_i t2 q2 hd2
        have h2 := consume_safe toks q1 .LParen none h1.1
        rw [hd2] at h2
        split
        · rename_i f q3 hd3
          have h3 := parse_arguments_safe fuel toks q2 h2.1
          rw [hd3] at h3
          exact ⟨h3.1, noUf_error (h3.2 f rfl)⟩
        · rename_i args q3 hd3
          have h3 := parse_arguments_safe fuel toks q2 h2.1
          rw [hd3] at h3
          split
          · rename_i f q4 hd4
            have h4 := consume_safe toks q3 .RParen none h3.1
            rw [hd4] at h4
            exact ⟨h4.1, noUf_error (h4.2 f rfl)⟩
          · rename_i t4 q4 hd4
            have h4 := consume_safe toks q3 .RParen none h3.1
            rw [hd4] at h4
            split
            · rename_i f q5 hd5
              have h5 := consume_safe toks q4 .Colon none h4.1
              rw [hd5] at h5
              exact ⟨h5.1, noUf_error (h5.2 f rfl)⟩
            · rename_i t5 q5 hd5
              have h5 := consume_safe toks q4 .Colon none h4.1
              rw [hd5] at h5
              split
              · rename_i f q6 hd6
                have h6 := parse_type_safe toks q5 h5.1
                rw [hd6] at h6
                exact ⟨h6.1, noUf_error (h6.2 f rfl)⟩
              · rename_i rty q6 hd6
                have h6 := parse_type_safe toks q5 h5.1
                rw [hd6] at h6
                split
                · rename_i f q7 hd7
                  have h7 := parse_block_safe fuel toks q6 h6.1
                  rw [hd7] at h7
                  exact ⟨h7.1, noUf_error (h7.2 f rfl)⟩
                · rename_i body q7 hd7
                  have h7 := parse_block_safe fuel toks q6 h6.1
                  rw [hd7] at h7
                  exact ⟨h7.1, noUf_ok _⟩

theorem parse_function_safe (fuel : Nat) (toks : List Token) (p : Nat)
    (hp : 1 ≤ p) : Safe1 (Parser.parse_function fuel toks p) := by
  unfold Parser.parse_function
  split
  · rename_i f p1 hd
    have h := match_token_safe toks p .Export hp
    rw [hd] at h
    exact ⟨h.1, noUf_error (h.2 f rfl)⟩
  · rename_i p1 hd
    have h := match_token_safe toks p .Export hp
    rw [hd] at h
    exact parse_function_rest_safe fuel toks .Export p1 h.1
  · rename_i p1 hd
    have h := match_token_safe toks p .Export hp
    rw [hd] at h
    split
    · rename_i f p2 hd2
      have h2 := match_token_safe toks p1 .Private h.1
      rw [hd2] at h2
      exact ⟨h2.1, noUf_error (h2.2 f rfl)⟩
    · rename_i p2 hd2
      have h2 := match_token_safe toks p1 .Private h.1
      rw [hd2] at h2
      exact parse_function_rest_safe fuel toks .Private p2 h2.1
    · rename_i p2 hd2
      have h2 := match_token_safe toks p1 .Private h.1
      rw [hd2] at h2
      split
      · rename_i f p3 hd3
        have h3 := match_token_safe toks p2 .Extern h2.1
        rw [hd3] at h3
        exact ⟨h3.1, noUf_error (h3.2 f rfl)⟩
      · rename_i p3 hd3
        have h3 := match_token_safe toks p2 .Extern h2.1
        rw [hd3] at h3
        exact parse_function_rest_safe fuel toks .Extern p3 h3.1
      · rename_i p3 hd3
        have h3 := match_token_safe toks p2 .Extern h2.1
        rw [hd3] at h3
        exact parse_function_rest_safe fuel toks .Default p3 h3.1

theorem parse_safe : ∀ (fuel : Nat) (toks : List Token) (p : Nat), 1 ≤ p →
    Safe1 (Parser.parse fuel toks p)
  | 0, _, p, hp => ⟨hp, noUf_panic (by decide)⟩
  | fuel + 1, toks, p, hp => by
    unfold Parser.parse
    split
    · exact ⟨hp, noUf_ok _⟩
    · split
      · -- Define
        split
        · rename_i f p2 hd
          have h := parse_function_safe fuel toks (Parser.advance toks p).2
            (le_trans hp (advance_ge toks p))
          rw [hd] at h
          exact ⟨h.1, noUf_error (h.2 f rfl)⟩
        · rename_i func p2 hd
          have h := parse_function_safe fuel toks (Parser.advance toks p).2
            (le_trans hp (advance_ge toks p))
          rw [hd] at h
          split
          · rename_i f p3 hd3
            have h3 := parse_safe fuel toks p2 h.1
            rw [hd3] at h3
            exact ⟨h3.1, noUf_error (h3.2 f rfl)⟩
          · rename_i rest p3 hd3
            have h3 := parse_safe fuel toks p2 h.1
            rw [hd3] at h3
            exact ⟨h3.1, noUf_ok _⟩
      · -- Import
        split
        · rename_i f p2 hd
          have h := parse_import_safe toks p hp
          rw [hd] at h
          exact ⟨h.1, noUf_error (h.2 f rfl)⟩
        · rename_i imp p2 hd
          have h := parse_import_safe toks p hp
          rw [hd] at h
          split
          · rename_i f p3 hd3
            have h3 := parse_safe fuel toks p2 h.1
            rw [hd3] at h3
            exact ⟨h3.1, noUf_error (h3.2 f rfl)⟩
          · rename_i rest p3 hd3
            have h3 := parse_safe fuel toks p2 h.1
            rw [hd3] at h3
            exact ⟨h3.1, noUf_ok _⟩
      · exact ⟨hp, noUf_panic (by decide)⟩

/-- From cursor `0`, a unit whose first top-level token is not `import`
never hits the `is_done` underflow: the `Define` path advances the cursor
to `1` before any `is_done` check, and any other token reaches the
(panicking) `placeholder`, not the underflow. -/
theorem parse_noUf_head (fuel : Nat) (t : Token) (rest : List Token)
    (ht : t.token_type ≠ .Import) :
    NoUf (Parser.parse fuel (t :: rest) 0).1 := by
  cases fuel with
  | zero => exact noUf_panic (by decide)
  | succ fuel =>
    unfold Parser.parse
    split
    · rename_i hpk
      have h0 : Parser.peek (t :: rest) 0 = some t := rfl
      rw [h0] at hpk
      exact Option.noConfusion hpk
    · rename_i token hpk
      split
      · -- Define
        have h1 : (Parser.advance (t :: rest) 0).2 = 1 := rfl
        split
        · rename_i f p2 hd
          have h := parse_function_safe fuel (t :: rest)
            (Parser.advance (t :: rest) 0).2 (by rw [h1])
          rw [hd] at h
          exact noUf_error (h.2 f rfl)
        · rename_i func p2 hd
          have h := parse_function_safe fuel (t :: rest)
            (Parser.advance (t :: rest) 0).2 (by rw [h1])
          rw [hd] at h
          split
          · rename_i f p3 hd3
            have h3 := parse_safe fuel (t :: rest) p2 h.1
            rw [hd3] at h3
            exact noUf_error (h3.2 f rfl)
          · exact noUf_ok _
      · -- Import: contradicts the hypothesis
        rename_i htt
        have htok : t = token := by
          have h0 : Parser.peek (t :: rest) 0 = some t := rfl
          rw [h0] at hpk
          exact Option.some.inj hpk
        exact absurd htt (htok ▸ ht)
      · exact noUf_panic (by decide)

/-- The tokens of `"import x"`. -/
def c10Tokens : List Token :=
  [⟨"import", .Import, ⟨0, 6, 0, 0, 0, 6⟩⟩,
   ⟨"x", .Identifier, ⟨7, 8, 0, 0, 7, 8⟩⟩]

/-- C10: the parser's end-of-input check is partial at cursor `0`:
`is_done` computes `pointer - 1` on an unsigned index, so it underflows at
`0` (modelled by `none`, the panic of a checked build); consequently every
`consume` or `match_token` call made while the shared cursor is still `0`
panics instead of returning a result — in particular parsing a unit whose
first top-level token is `import`, where `parse` enters `parse_import`
without advancing.  All other parse paths first advance the cursor past
`0` (the `Define` path) and keep the cursor at least `1` at every
`is_done` call, so from any cursor `≥ 1` (and from `0` when the first
token is not `import`) the underflow panic never occurs. -/
theorem C10_is_done_underflow :
    (∀ toks : List Token, Parser.is_done toks 0 = none) ∧
    (∀ (toks : List Token) (tt : TokenType) (note : Option String),
      Parser.consume toks 0 tt note =
        (.error (.panicked .isDoneUnderflow), 0)) ∧
    (∀ (toks : List Token) (tt : TokenType),
      Parser.match_token toks 0 tt =
        (.error (.panicked .isDoneUnderflow), 0)) ∧
    (tokenize "import x" = .ok c10Tokens ∧
      Parser.parse 100 c10Tokens 0 =
        (.error (.panicked .isDoneUnderflow), 0)) ∧
    (∀ (fuel : Nat) (toks : List Token) (p : Nat), 1 ≤ p →
      (Parser.parse fuel toks p).1 ≠ .error (.panicked .isDoneUnderflow)) ∧
    (∀ (fuel : Nat) (t : Token) (rest : List Token),
      t.token_type ≠ .Import →
      (Parser.parse fuel (t :: rest) 0).1 ≠
        .error (.panicked .isDoneUnderflow)) := by
  refine ⟨fun toks => rfl, fun toks tt note => rfl, fun toks tt => rfl,
    ⟨by rfl, by rfl⟩, ?_, ?_⟩
  · intro fuel toks p hp hc
    exact (parse_safe fuel toks p hp).2 _ hc rfl
  · intro fuel t rest ht hc
    exact parse_noUf_head fuel t rest ht _ hc rfl

/-- Witness for `C10_is_done_underflow`: its universally quantified parts
applied at concrete inputs, every hypothesis discharged by evaluation. -/
theorem C10_witness :
    Parser.is_done [] 0 = none ∧
    Parser.parse 100 c10Tokens 0 = (.error (.panicked .isDoneUnderflow), 0) ∧
    (Parser.parse 5 c10Tokens 1).1 ≠ .error (.panicked .isDoneUnderflow) ∧
    (Parser.parse 5 [⟨"def", .Define, ⟨0, 3, 0, 0, 0, 3⟩⟩] 0).1 ≠
      .error (.panicked .isDoneUnderflow) :=
  ⟨C10_is_done_underflow.1 [],
   C10_is_done_underflow.2.2.2.1.2,
   C10_is_done_underflow.2.2.2.2.1 5 c10Tokens 1 (by decide),
   C10_is_done_underflow.2.2.2.2.2 5 ⟨"def", .Define, ⟨0, 3, 0, 0, 0, 3⟩⟩ []
     (by decide)⟩
